import Mathlib

/-!
# Promotion admission webhook

A shallow embedding of `internal/webhook/kubernetes/promotion/webhook.go`:
the defaulting hook (`Default`, `setAbortAnnotationActor`), the three
validation hooks (`ValidateCreate`, `ValidateUpdate`, `ValidateDelete`) and the
authorizer (`authorize`).

Conventions of the embedding.

* A Go function that mutates its argument in place returns the mutated value.
  `Default` returns the Promotion as it stands when the function returns
  together with the error (if any), because the in-place writes made before an
  error are visible to the caller.
* Calls to collaborators whose answer the code ignores or whose request the
  properties talk about (the SubjectAccessReview submission, the event
  recorder) are returned as a list of `Effect`s, in call order.
* A Go `map[string]string` is a function `String → Option String`. Reading a
  nil map behaves as reading an empty map and `delete` on a nil map is a no-op,
  so the nil map and the empty map are identified; the `== nil` guards of the
  source, which only protect writes, are the identity here.
* A Go slice is `Option (List α)`, `none` being the nil slice, so that
  `reflect.DeepEqual` on the spec is exactly Lean equality.
* Go errors are the inductive type `GoError`; the constructors of the
  Kubernetes `apierrors` package are constructors of that type, which keeps the
  list of field errors and the wrapped error unrendered. The texts that the
  source formats are built by concatenation, `%s` being the string itself and
  `%q` the quoting function `Lib.quote`.
* Functions and constants of the repository that are declared outside
  `webhook.go` are the fields of `Lib`, a parameter of the definitions that use
  them.
-/

set_option autoImplicit false

namespace Kargo

/-! ## Go values -/

/-- A Go slice: `none` is the nil slice, `some xs` a non-nil slice. -/
abbrev Slice (α : Type) := Option (List α)

/-- Go `len` of a slice: the nil slice has length zero. -/
def len {α : Type} : Slice α → Nat
  | none => 0
  | some xs => xs.length

/-- A Go `map[string]string`, read-extensionally. -/
abbrev StrMap := String → Option String

/-- The map with no key. -/
def emptyMap : StrMap := fun _ => none

/-- Go `m[k] = v`. -/
def mapSet (m : StrMap) (k v : String) : StrMap :=
  fun x => if x = k then some v else m x

/-- Go `delete(m, k)`. -/
def mapDelete (m : StrMap) (k : String) : StrMap :=
  fun x => if x = k then none else m x

/-! ## Kubernetes and controller-runtime values -/

/-- The requester of an admission call (`authenticationv1.UserInfo`). -/
structure UserInfo where
  Username : String
  UID : String
  Groups : Slice String
  deriving DecidableEq, Repr

/-- The operation of an admission request (`admissionv1.Operation`). -/
inductive AdmissionOperation where
  | Create
  | Update
  | Delete
  | Connect
  deriving DecidableEq, Repr

/-- An admission request (`admission.Request`); `OldObject` is the raw, still
encoded previous version of the object. -/
structure Request where
  Operation : AdmissionOperation
  UserInfo : UserInfo
  OldObject : String
  deriving DecidableEq, Repr

/-- The call context; the only thing the webhook reads from it is the admission
request, which may be missing. -/
structure Context where
  request : Option Request
  deriving DecidableEq, Repr

/-- A namespaced name (`types.NamespacedName`). -/
structure NamespacedName where
  Namespace : String
  Name : String
  deriving DecidableEq, Repr

/-- An owner reference (`metav1.OwnerReference`). -/
structure OwnerReference where
  APIVersion : String
  Kind : String
  Name : String
  UID : String
  Controller : Option Bool
  BlockOwnerDeletion : Option Bool
  deriving DecidableEq, Repr

/-- A group and kind (`schema.GroupKind`). -/
structure GroupKind where
  Group : String
  Kind : String
  deriving DecidableEq, Repr

/-- A group and resource (`schema.GroupResource`). -/
structure GroupResource where
  Group : String
  Resource : String
  deriving DecidableEq, Repr

/-- The resource descriptor of an access review (`authzv1.ResourceAttributes`). -/
structure ResourceAttributes where
  Group : String
  Resource : String
  Name : String
  Verb : String
  Namespace : String
  deriving DecidableEq, Repr

/-- The request part of an access review (`authzv1.SubjectAccessReviewSpec`). -/
structure SubjectAccessReviewSpec where
  User : String
  Groups : Slice String
  ResourceAttributes : Option ResourceAttributes
  deriving DecidableEq, Repr

/-- The answer part of an access review (`authzv1.SubjectAccessReviewStatus`). -/
structure SubjectAccessReviewStatus where
  Allowed : Bool
  deriving DecidableEq, Repr

/-- An access review (`authzv1.SubjectAccessReview`). -/
structure SubjectAccessReview where
  Spec : SubjectAccessReviewSpec
  Status : SubjectAccessReviewStatus
  deriving DecidableEq, Repr

/-! ## Kargo API values -/

/-- Modelled from the spec: the type `PromotionTaskReference` is declared
outside `webhook.go`; it is the reference of a step to a reusable task
template. -/
structure PromotionTaskReference where
  Name : String
  Kind : String
  deriving DecidableEq, Repr

/-- Modelled from the spec: the type `PromotionStep` is declared outside
`webhook.go`; a step is either a concrete action (`Uses`, with its `Config`) or
a reference to a reusable task template (`Task`). -/
structure PromotionStep where
  Uses : String
  Task : Option PromotionTaskReference
  Config : Option String
  deriving DecidableEq, Repr

/-- Modelled from the spec: the type `PromotionSpec` is declared outside
`webhook.go`; it holds the target Stage name, the target Freight identifier
and the ordered sequence of steps. -/
structure PromotionSpec where
  Stage : String
  Freight : String
  Steps : Slice PromotionStep
  deriving DecidableEq, Repr

/-- Modelled from the spec: the type `Promotion` is declared outside
`webhook.go`; the webhook reads and writes its name, namespace, annotations,
labels, owner references and spec. -/
structure Promotion where
  Name : String
  Namespace : String
  Annotations : StrMap
  Labels : StrMap
  OwnerReferences : Slice OwnerReference
  Spec : PromotionSpec

/-- Modelled from the spec: the type `StageSpec` is declared outside
`webhook.go`; the webhook reads the shard identifier, possibly empty. -/
structure StageSpec where
  Shard : String
  deriving DecidableEq, Repr

/-- Modelled from the spec: the type `Stage` is declared outside `webhook.go`;
the webhook reads its name and UID (for the owner reference) and its shard. -/
structure Stage where
  Name : String
  Namespace : String
  UID : String
  Spec : StageSpec
  deriving DecidableEq, Repr

/-- Modelled from the spec: the type `Freight` is declared outside
`webhook.go`; an artifact bundle referenced by identifier. -/
structure Freight where
  Name : String
  Namespace : String
  deriving DecidableEq, Repr

/-- Modelled from the spec: the type `AbortPromotionRequest` is declared
outside `webhook.go`; the value embedded in the `abort-request` annotation:
requested action, actor identity, control-plane flag. -/
structure AbortPromotionRequest where
  Action : String
  Actor : String
  ControlPlane : Bool
  deriving DecidableEq, Repr

/-- Modelled from the spec: the method `AbortPromotionRequest.Equals` is
declared outside `webhook.go`. Two instances are equal iff action and actor
match; the control-plane flag is excluded from equality. The receiver is
non-nil at the only call site; a nil argument is not equal to it. -/
def AbortPromotionRequest.Equals (r : AbortPromotionRequest) :
    Option AbortPromotionRequest → Bool
  | none => false
  | some other => r.Action == other.Action && r.Actor == other.Actor

/-- Modelled from the spec: the constant `kargoapi.AnnotationKeyCreateActor` is
declared outside `webhook.go`; the spec names the annotation `create-actor`. -/
def AnnotationKeyCreateActor : String := "create-actor"

/-- Modelled from the spec: the constant `kargoapi.AnnotationKeyAbort` is
declared outside `webhook.go`; the spec names the annotation `abort-request`. -/
def AnnotationKeyAbort : String := "abort-request"

/-- Modelled from the spec: the constant `kargoapi.LabelKeyShard` is declared
outside `webhook.go`; the spec names the label `shard`. -/
def LabelKeyShard : String := "shard"

/-! ## Errors -/

/-- The kind of a field error (`field.ErrorType`). -/
inductive ErrorType where
  | NotFound
  | Required
  | Invalid
  | Forbidden
  deriving DecidableEq, Repr

/-- The offending value carried by a field error (`field.Error.BadValue`, an
`interface{}` in Go): the webhook stores a string or a whole spec. -/
inductive BadValue where
  | str (s : String)
  | spec (s : PromotionSpec)
  deriving DecidableEq, Repr

/-- A field error (`field.Error`). -/
structure FieldError where
  ErrType : ErrorType
  Field : String
  BadValue : BadValue
  Detail : String
  deriving DecidableEq, Repr

/-- The rendering of `field.NewPath(name, moreNames...)`: the names joined by
dots. -/
def NewPath (names : List String) : String :=
  ".".intercalate names

/-- The constructor `field.Invalid(path, value, detail)`. -/
def fieldInvalid (path : String) (value : BadValue) (detail : String) : FieldError :=
  { ErrType := .Invalid, Field := path, BadValue := value, Detail := detail }

/-- The reason of an API status error (`metav1.StatusReason`). -/
inductive StatusReason where
  | Invalid
  | Forbidden
  | InternalError
  | Other (name : String)
  deriving DecidableEq, Repr

/-- Go error values as the webhook sees them.

* `errorf msg` is `fmt.Errorf` or `errors.New` without a wrapped error;
* `wrapf msg inner` is `fmt.Errorf(msg + ": %w", inner)`;
* `fieldError e` is a `*field.Error`;
* `invalid`, `forbidden`, `internalError` are the `*apierrors.StatusError`
  values built by `apierrors.NewInvalid`, `NewForbidden`, `NewInternalError`,
  with their arguments kept unrendered;
* `status reason msg` is any other `*apierrors.StatusError`. -/
inductive GoError where
  | errorf (msg : String)
  | wrapf (msg : String) (inner : GoError)
  | fieldError (e : FieldError)
  | invalid (qualifiedKind : GroupKind) (name : String) (errs : List FieldError)
  | forbidden (qualifiedResource : GroupResource) (name : String) (err : GoError)
  | internalError (err : GoError)
  | status (reason : StatusReason) (msg : String)
  deriving DecidableEq, Repr

/-- The function `apierrors.NewInvalid`. -/
def NewInvalid (qualifiedKind : GroupKind) (name : String) (errs : List FieldError) : GoError :=
  .invalid qualifiedKind name errs

/-- The function `apierrors.NewForbidden`. -/
def NewForbidden (qualifiedResource : GroupResource) (name : String) (err : GoError) : GoError :=
  .forbidden qualifiedResource name err

/-- The function `apierrors.NewInternalError`. -/
def NewInternalError (err : GoError) : GoError :=
  .internalError err

/-- The function `apierrors.ReasonForError`, restricted to the error itself: the
reason of a status error, `none` for an error that is not a status error. -/
def reasonOf : GoError → Option StatusReason
  | .invalid _ _ _ => some .Invalid
  | .forbidden _ _ _ => some .Forbidden
  | .internalError _ => some .InternalError
  | .status reason _ => some reason
  | _ => none

/-- The HTTP code of a status error (`Status().Code`) for the three constructors
the webhook uses. -/
def codeOf : GoError → Option Nat
  | .invalid _ _ _ => some 422
  | .forbidden _ _ _ => some 403
  | .internalError _ => some 500
  | _ => none

/-- The field errors a status error carries as causes. -/
def causesOf : GoError → List FieldError
  | .invalid _ _ errs => errs
  | _ => []

/-- Go `errors.As(err, &statusErr)` with `statusErr *apierrors.StatusError`: the
first status error in the chain of wrapped errors. -/
def asStatusError : GoError → Option GoError
  | .errorf _ => none
  | .wrapf _ inner => asStatusError inner
  | .fieldError _ => none
  | e => some e

/-- Go `errors.As(err, &fieldErr)` with `fieldErr *field.Error`: the first field
error in the chain of wrapped errors. -/
def asFieldError : GoError → Option FieldError
  | .wrapf _ inner => asFieldError inner
  | .fieldError e => some e
  | _ => none

/-! ## Collaborators -/

/-- A recorded event: the arguments of `recorder.AnnotatedEventf`, the object
given by its namespace and name and the message already formatted. -/
structure RecordedEvent where
  Object : NamespacedName
  Annotations : List (String × String)
  EventType : String
  Reason : String
  Message : String
  deriving DecidableEq, Repr

/-- A call to a collaborator that the webhook makes for its effect. -/
inductive Effect where
  | createSubjectAccessReview (review : SubjectAccessReview)
  | annotatedEvent (event : RecordedEvent)
  deriving DecidableEq, Repr

/-- The Kubernetes client (`client.Client`). The only method `webhook.go` calls
on it directly is `Create`, for the access review; the server fills in the
status of the submitted object, which is returned here. -/
structure Client where
  Create : Context → SubjectAccessReview → Except GoError SubjectAccessReview

/-- The admission decoder (`admission.Decoder`). -/
structure Decoder where
  DecodeRaw : String → Except GoError Promotion

/-- The webhook configuration (`libWebhook.Config`). -/
structure Config where
  ControlplaneUserRegex : String

/-- An error together with the collaborator calls made on the way. -/
structure Checked where
  err : Option GoError
  effects : List Effect
  deriving DecidableEq, Repr

/-- The result of a validation hook: `(admission.Warnings, error)` together with
the collaborator calls made on the way. -/
structure Admission where
  warnings : Slice String
  err : Option GoError
  effects : List Effect
  deriving DecidableEq, Repr

/-- Functions and constants of the repository that `webhook.go` uses and that
are declared outside it, taken as parameters.

* `Group` is `kargoapi.GroupVersion.Group`;
* `Version` is `kargoapi.GroupVersion.Version`;
* `EventReasonPromotionCreated` is the constant of that name;
* `FormatEventKubernetesUserActor` is `api.FormatEventKubernetesUserActor`;
* `parseAbortRequest` is what `api.AbortPromotionAnnotationValue` does with the
  value of the abort annotation, `none` when it yields no request;
* `abortRequestString` is `AbortPromotionRequest.String`;
* `IsFreightAvailable` is `Stage.IsFreightAvailable`, on possibly nil pointers;
* `InflateSteps` is `kargo.NewPromotionBuilder(client).InflateSteps`, returning
  the expanded steps it stores in the Promotion;
* `NewPromotionAnnotations` is `kargoEvent.NewPromotionAnnotations`;
* `GetFreight`, `GetStage`, `ValidateProject`, `RequestFromContext` and
  `IsRequestFromKargoControlplane` are the functions `newWebhook` wires in.

One field is a function of the Go standard library rather than of the
repository: `quote` is the verb `%q` of `fmt` on a string (`strconv.Quote`),
which surrounds the string with double quotes and escapes backslashes, double
quotes and non-printable characters. Its escaping rules are not reproduced;
every text that the source formats with `%q` is built with this function. -/
structure Lib where
  quote : String → String
  Group : String
  Version : String
  EventReasonPromotionCreated : String
  FormatEventKubernetesUserActor : UserInfo → String
  parseAbortRequest : String → Option AbortPromotionRequest
  abortRequestString : AbortPromotionRequest → String
  IsFreightAvailable : Option Stage → Option Freight → Bool
  InflateSteps : Client → Context → Promotion → Except GoError (Slice PromotionStep)
  NewPromotionAnnotations : Context → String → Promotion → Option Freight → List (String × String)
  GetFreight : Context → Client → NamespacedName → Except GoError (Option Freight)
  GetStage : Context → Client → NamespacedName → Except GoError (Option Stage)
  ValidateProject : Context → Client → Promotion → Option GoError
  RequestFromContext : Context → Except GoError Request
  IsRequestFromKargoControlplane : String → Request → Bool

/-- Modelled from the spec: the function `api.AbortPromotionAnnotationValue` is
declared outside `webhook.go`. It reads the `abort-request` annotation and
yields the request serialized in it, if the annotation is present and holds
one. -/
def AbortPromotionAnnotationValue (L : Lib) (annotations : StrMap) :
    Option AbortPromotionRequest :=
  match annotations AnnotationKeyAbort with
  | none => none
  | some requested => L.parseAbortRequest requested

/-- The function `metav1.NewControllerRef(stage, GroupVersion.WithKind("Stage"))`. -/
def NewControllerRef (L : Lib) (stage : Stage) : OwnerReference :=
  { APIVersion := L.Group ++ "/" ++ L.Version
    Kind := "Stage"
    Name := stage.Name
    UID := stage.UID
    Controller := some true
    BlockOwnerDeletion := some true }

/-! ## The webhook -/

/-- The variable `promotionGroupKind` (lines 33-36). -/
def promotionGroupKind (L : Lib) : GroupKind :=
  { Group := L.Group, Kind := "Promotion" }

/-- The variable `promotionGroupResource` (lines 37-40). -/
def promotionGroupResource (L : Lib) : GroupResource :=
  { Group := L.Group, Resource := "Promotion" }

/-- The struct `webhook` (lines 43-84). The recorder is not a field: the calls
made to it are returned as effects. -/
structure Webhook where
  client : Client
  decoder : Decoder
  getFreightFn : Context → Client → NamespacedName → Except GoError (Option Freight)
  getStageFn : Context → Client → NamespacedName → Except GoError (Option Stage)
  validateProjectFn : Context → Client → Promotion → Option GoError
  authorizeFn : Context → Promotion → String → Checked
  admissionRequestFromContextFn : Context → Except GoError Request
  createSubjectAccessReviewFn : Context → SubjectAccessReview → Except GoError SubjectAccessReview
  isRequestFromKargoControlplaneFn : Request → Bool

/-- The access review that `authorize` builds (lines 348-360). -/
def accessReviewFor (L : Lib) (req : Request) (promo : Promotion) : SubjectAccessReview :=
  { Spec :=
      { User := req.UserInfo.Username
        Groups := req.UserInfo.Groups
        ResourceAttributes := some
          { Group := L.Group
            Resource := "stages"
            Name := promo.Spec.Stage
            Verb := "promote"
            Namespace := promo.Namespace } }
    Status := { Allowed := false } }

/-- The method `authorize` (lines 327-387); the access review of lines 348-360
is `accessReviewFor`. -/
def authorize (L : Lib) (w : Webhook) (ctx : Context) (promo : Promotion)
    (action : String) : Checked :=
  match w.admissionRequestFromContextFn ctx with
  | .error _ =>
    { err := some (NewForbidden (promotionGroupResource L) promo.Name
        (.errorf ("error retrieving admission request from context; refusing to " ++
          action ++ " Promotion")))
      effects := [] }
  | .ok req =>
    let accessReview := accessReviewFor L req promo
    match w.createSubjectAccessReviewFn ctx accessReview with
    | .error _ =>
      { err := some (NewForbidden (promotionGroupResource L) promo.Name
          (.errorf ("error creating SubjectAccessReview; refusing to " ++
            action ++ " Promotion")))
        effects := [.createSubjectAccessReview accessReview] }
    | .ok answered =>
      if !answered.Status.Allowed then
        { err := some (NewForbidden (promotionGroupResource L) promo.Name
            (.errorf ("subject " ++ L.quote req.UserInfo.Username ++ " is not permitted to " ++
              action ++ " Promotions for Stage " ++ L.quote promo.Spec.Stage)))
          effects := [.createSubjectAccessReview accessReview] }
      else
        { err := none, effects := [.createSubjectAccessReview accessReview] }

/-- The function `newWebhook` (lines 104-123). The struct is first built with
the client and decoder, then each overridable behaviour is assigned; the
authorizer is the method `authorize` of the webhook itself. -/
def newWebhook (L : Lib) (cfg : Config) (kubeClient : Client) (decoder : Decoder) : Webhook :=
  let w : Webhook :=
    { client := kubeClient
      decoder := decoder
      getFreightFn := L.GetFreight
      getStageFn := L.GetStage
      validateProjectFn := L.ValidateProject
      authorizeFn := fun _ _ _ => { err := none, effects := [] }
      admissionRequestFromContextFn := L.RequestFromContext
      createSubjectAccessReviewFn := kubeClient.Create
      isRequestFromKargoControlplaneFn :=
        L.IsRequestFromKargoControlplane cfg.ControlplaneUserRegex }
  { w with authorizeFn := authorize L w }

/-- The previous version that `Default` decodes (lines 132-139): the old object
of an update request, no previous version for any other operation. -/
def decodeOldPromo (w : Webhook) (req : Request) : Except GoError (Option Promotion) :=
  if req.Operation = .Update then
    match w.decoder.DecodeRaw req.OldObject with
    | .error err => .error (.wrapf "decode old object" err)
    | .ok oldPromo => .ok (some oldPromo)
  else .ok none

/-- The abort request of the previous version as `setAbortAnnotationActor`
reads it (lines 409-412): none when there is no previous version or it carries
no abort request. -/
def previousAbortRequest (L : Lib) (existing : Option Promotion) :
    Option AbortPromotionRequest :=
  match existing with
  | none => none
  | some existing => AbortPromotionAnnotationValue L existing.Annotations

/-- The method `setAbortAnnotationActor` (lines 407-426); `existing` is `none`
for the nil pointer. -/
def setAbortAnnotationActor (L : Lib) (w : Webhook) (req : Request)
    (existing : Option Promotion) (updated : Promotion) : Promotion :=
  match AbortPromotionAnnotationValue L updated.Annotations with
  | none => updated
  | some abortReq =>
    let oldAbortReq : Option AbortPromotionRequest :=
      match existing with
      | none => none
      | some existing => AbortPromotionAnnotationValue L existing.Annotations
    if existing.isNone || oldAbortReq.isNone || !abortReq.Equals oldAbortReq then
      let abortReq := { abortReq with ControlPlane := w.isRequestFromKargoControlplaneFn req }
      let abortReq :=
        if !abortReq.ControlPlane then
          { abortReq with Actor := L.FormatEventKubernetesUserActor req.UserInfo }
        else abortReq
      { updated with
        Annotations := mapSet updated.Annotations AnnotationKeyAbort (L.abortRequestString abortReq) }
    else updated

/-- The second half of `Default` (lines 172-216), common to every operation:
Stage resolution, the check for steps, the shard label and the owner
reference. -/
def defaultFromStage (L : Lib) (w : Webhook) (ctx : Context) (promo : Promotion) :
    Promotion × Option GoError :=
  match w.getStageFn ctx w.client { Namespace := promo.Namespace, Name := promo.Spec.Stage } with
  | .error err =>
    (promo, some (.wrapf ("error finding Stage " ++ L.quote promo.Spec.Stage ++
      " in namespace " ++ L.quote promo.Namespace) err))
  | .ok none =>
    (promo, some (.errorf ("could not find Stage " ++ L.quote promo.Spec.Stage ++
      " in namespace " ++ L.quote promo.Namespace)))
  | .ok (some stage) =>
    if len promo.Spec.Steps = 0 then
      (promo, some (.errorf ("Stage " ++ L.quote promo.Spec.Stage ++ " in namespace " ++
        L.quote promo.Namespace ++ " defines no promotion steps")))
    else
      let promo :=
        if stage.Spec.Shard ≠ "" then
          { promo with Labels := mapSet promo.Labels LabelKeyShard stage.Spec.Shard }
        else
          { promo with Labels := mapDelete promo.Labels LabelKeyShard }
      let ownerRef := NewControllerRef L stage
      ({ promo with OwnerReferences := some [ownerRef] }, none)

/-- The annotation writes of the `Create` case of the switch in `Default` (lines
147-154): the create-actor of a requester that is not the control plane, then
the abort reconciliation without a previous version. -/
def defaultCreateAnnotations (L : Lib) (w : Webhook) (req : Request) (promo : Promotion) :
    Promotion :=
  let promo :=
    if !w.isRequestFromKargoControlplaneFn req then
      { promo with
        Annotations := mapSet promo.Annotations AnnotationKeyCreateActor
          (L.FormatEventKubernetesUserActor req.UserInfo) }
    else promo
  setAbortAnnotationActor L w req none promo

/-- The `Update` case of the switch in `Default` (lines 161-169): the
create-actor of the previous version is carried over or the annotation deleted,
then the abort reconciliation against the previous version. -/
def defaultUpdateAnnotations (L : Lib) (w : Webhook) (req : Request)
    (oldPromo promo : Promotion) : Promotion :=
  let promo :=
    match oldPromo.Annotations AnnotationKeyCreateActor with
    | some oldActor =>
      { promo with
        Annotations := mapSet promo.Annotations AnnotationKeyCreateActor oldActor }
    | none =>
      { promo with
        Annotations := mapDelete promo.Annotations AnnotationKeyCreateActor }
  setAbortAnnotationActor L w req (some oldPromo) promo

/-- The method `Default` (lines 125-217). The old object is decoded only for an
update and used only in the update case of the switch, so both are done in the
update branch; the bodies of the two cases of the switch are
`defaultCreateAnnotations` and `defaultUpdateAnnotations`, and lines 172-216 are
`defaultFromStage`. -/
def Default (L : Lib) (w : Webhook) (ctx : Context) (obj : Promotion) :
    Promotion × Option GoError :=
  match w.admissionRequestFromContextFn ctx with
  | .error err => (obj, some (.wrapf "get admission request from context" err))
  | .ok req =>
    let promo := obj
    match req.Operation with
    | .Create =>
      let promo := defaultCreateAnnotations L w req promo
      match L.InflateSteps w.client ctx promo with
      | .error err => (promo, some (.wrapf "failed to inflate Promotion steps" err))
      | .ok steps =>
        defaultFromStage L w ctx { promo with Spec := { promo.Spec with Steps := steps } }
    | .Update =>
      match w.decoder.DecodeRaw req.OldObject with
      | .error err => (promo, some (.wrapf "decode old object" err))
      | .ok oldPromo => defaultFromStage L w ctx (defaultUpdateAnnotations L w req oldPromo promo)
    | _ => defaultFromStage L w ctx promo

/-- The method `recordPromotionCreatedEvent` (lines 389-405): the call it makes
to the recorder. -/
def recordPromotionCreatedEvent (L : Lib) (ctx : Context) (req : Request)
    (p : Promotion) (f : Option Freight) : List Effect :=
  let actor := L.FormatEventKubernetesUserActor req.UserInfo
  [.annotatedEvent
    { Object := { Namespace := p.Namespace, Name := p.Name }
      Annotations := L.NewPromotionAnnotations ctx actor p f
      EventType := "Normal"
      Reason := L.EventReasonPromotionCreated
      Message := "Promotion created for Stage " ++ L.quote p.Spec.Stage ++ " by " ++
        L.quote actor }]

/-- The method `ValidateCreate` (lines 219-288). -/
def ValidateCreate (L : Lib) (w : Webhook) (ctx : Context) (obj : Promotion) : Admission :=
  let promo := obj
  match w.validateProjectFn ctx w.client promo with
  | some err =>
    match asStatusError err with
    | some statusErr => { warnings := none, err := some statusErr, effects := [] }
    | none =>
      match asFieldError err with
      | none => { warnings := none, err := some (NewInternalError err), effects := [] }
      | some fieldErr =>
        { warnings := none
          err := some (NewInvalid (promotionGroupKind L) promo.Name [fieldErr])
          effects := [] }
  | none =>
    let authz := w.authorizeFn ctx promo "create"
    match authz.err with
    | some err =>
      { warnings := none, err := some (NewInternalError err), effects := authz.effects }
    | none =>
      match w.admissionRequestFromContextFn ctx with
      | .error err =>
        { warnings := none
          err := some (NewInternalError (.wrapf "get admission request from context" err))
          effects := authz.effects }
      | .ok req =>
        match w.getStageFn ctx w.client
          { Namespace := promo.Namespace, Name := promo.Spec.Stage } with
        | .error err =>
          { warnings := none
            err := some (NewInternalError (.wrapf "get stage" err))
            effects := authz.effects }
        | .ok stage =>
          match w.getFreightFn ctx w.client
            { Namespace := promo.Namespace, Name := promo.Spec.Freight } with
          | .error err =>
            { warnings := none
              err := some (NewInternalError (.wrapf "get freight" err))
              effects := authz.effects }
          | .ok freight =>
            if !L.IsFreightAvailable stage freight then
              { warnings := none
                err := some (NewInvalid (promotionGroupKind L) promo.Name
                  [fieldInvalid (NewPath ["spec", "freight"]) (.str promo.Spec.Freight)
                    "Freight is not available to this Stage"])
                effects := authz.effects }
            else
              { warnings := none
                err := none
                effects := authz.effects ++
                  (if !w.isRequestFromKargoControlplaneFn req then
                    recordPromotionCreatedEvent L ctx req promo freight
                  else []) }

/-- The method `ValidateUpdate` (lines 290-317); `reflect.DeepEqual` on the two
specs is equality of the embedded values. -/
def ValidateUpdate (L : Lib) (w : Webhook) (ctx : Context) (oldObj newObj : Promotion) :
    Admission :=
  let promo := newObj
  let authz := w.authorizeFn ctx promo "update"
  match authz.err with
  | some err =>
    { warnings := none, err := some (NewInternalError err), effects := authz.effects }
  | none =>
    if !decide (promo.Spec = oldObj.Spec) then
      { warnings := none
        err := some (NewInvalid (promotionGroupKind L) promo.Name
          [fieldInvalid (NewPath ["spec"]) (.spec promo.Spec) "spec is immutable"])
        effects := authz.effects }
    else
      { warnings := none, err := none, effects := authz.effects }

/-- The method `ValidateDelete` (lines 319-325). -/
def ValidateDelete (w : Webhook) (ctx : Context) (obj : Promotion) : Admission :=
  let promo := obj
  let authz := w.authorizeFn ctx promo "delete"
  { warnings := none, err := authz.err, effects := authz.effects }

/-! ## A concrete instance

A small cluster on which the definitions are evaluated: one Stage `test` in the
namespace `kargo-demo` with shard `shard-a`, to which the Freight `f1` and `f2`
are available, the users `alice` and `mallory`, and the control plane
`kargo-controller`. -/

namespace Example

/-- The serialization of an abort request in the instance: a flag character
(`c` for the control plane, `u` otherwise), the action and the actor, separated
by blanks. -/
def abortString (r : AbortPromotionRequest) : String :=
  String.mk ((if r.ControlPlane then 'c' else 'u') :: ' ' :: (r.Action.data ++ ' ' :: r.Actor.data))

/-- The action and actor of a serialized abort request, after the flag. -/
def parseBody (cp : Bool) (rest : List Char) : Option AbortPromotionRequest :=
  let fields := rest.span (fun c => c != ' ')
  if fields.1 = [] then none
  else some { Action := String.mk fields.1, Actor := String.mk (fields.2.drop 1), ControlPlane := cp }

/-- The reader of `abortString`; a value that holds no action yields no
request. -/
def parseAbort (s : String) : Option AbortPromotionRequest :=
  match s.data with
  | 'c' :: ' ' :: rest => parseBody true rest
  | 'u' :: ' ' :: rest => parseBody false rest
  | _ => none

/-- The escaping of the quoting of the instance: a backslash before a backslash
and before a double quote, the escapes of newline, tab and carriage return,
every other character as it is. -/
def quoteChars : List Char → List Char
  | [] => []
  | c :: cs =>
    (if c = Char.ofNat 92 then [Char.ofNat 92, Char.ofNat 92]
      else if c = Char.ofNat 34 then [Char.ofNat 92, Char.ofNat 34]
      else if c = Char.ofNat 10 then [Char.ofNat 92, 'n']
      else if c = Char.ofNat 9 then [Char.ofNat 92, 't']
      else if c = Char.ofNat 13 then [Char.ofNat 92, 'r']
      else [c]) ++ quoteChars cs

/-- The quoting of the instance: what Go's `%q` gives on a string whose other
characters are printable. -/
def quoteText (s : String) : String :=
  String.mk (Char.ofNat 34 :: (quoteChars s.data ++ [Char.ofNat 34]))

/-- The Stage of the instance. -/
def stage : Stage :=
  { Name := "test", Namespace := "kargo-demo", UID := "uid-1", Spec := { Shard := "shard-a" } }

/-- The library functions of the instance. -/
def lib : Lib :=
  { quote := quoteText
    Group := "kargo.akuity.io"
    Version := "v1alpha1"
    EventReasonPromotionCreated := "PromotionCreated"
    FormatEventKubernetesUserActor := fun u => "kubernetes-user:" ++ u.Username
    parseAbortRequest := parseAbort
    abortRequestString := abortString
    IsFreightAvailable := fun s f =>
      match s, f with
      | some s, some f => s.Namespace == f.Namespace && (f.Name == "f1" || f.Name == "f2")
      | _, _ => false
    InflateSteps := fun _ _ promo => .ok promo.Spec.Steps
    NewPromotionAnnotations := fun _ actor promo _ =>
      [("actor", actor), ("promotion", promo.Name)]
    GetFreight := fun _ _ nn =>
      if nn.Namespace = "kargo-demo" ∧ (nn.Name = "f1" ∨ nn.Name = "f2" ∨ nn.Name = "f3") then
        .ok (some { Name := nn.Name, Namespace := nn.Namespace })
      else .ok none
    GetStage := fun _ _ nn =>
      if nn = { Namespace := "kargo-demo", Name := "test" } then .ok (some stage) else .ok none
    ValidateProject := fun _ _ _ => none
    RequestFromContext := fun ctx =>
      match ctx.request with
      | some req => .ok req
      | none => .error (.errorf "admission request not found in context")
    IsRequestFromKargoControlplane := fun pattern req => req.UserInfo.Username == pattern }

/-- The configuration of the instance: the control plane is `kargo-controller`. -/
def cfg : Config := { ControlplaneUserRegex := "kargo-controller" }

/-- An access-review service that allows every request. -/
def allowAll : Client :=
  { Create := fun _ review => .ok { review with Status := { Allowed := true } } }

/-- An access-review service that allows no request. -/
def denyAll : Client :=
  { Create := fun _ review => .ok { review with Status := { Allowed := false } } }

/-- An access-review service that cannot be reached. -/
def unavailable : Client :=
  { Create := fun _ _ => .error (.errorf "connection refused") }

/-- The steps of the Promotions of the instance. -/
def steps : Slice PromotionStep :=
  some [{ Uses := "git-clone", Task := none, Config := some "repoURL" }]

/-- A Promotion of Freight `f1` to the Stage. -/
def promo : Promotion :=
  { Name := "p1"
    Namespace := "kargo-demo"
    Annotations := emptyMap
    Labels := emptyMap
    OwnerReferences := none
    Spec := { Stage := "test", Freight := "f1", Steps := steps } }

/-- The same Promotion with the configuration of its step changed. -/
def promoStepChanged : Promotion :=
  { promo with
    Spec := { promo.Spec with
      Steps := some [{ Uses := "git-clone", Task := none, Config := some "otherURL" }] } }

/-- A Promotion of Freight `f3`, which is not available to the Stage. -/
def promoF3 : Promotion :=
  { promo with Spec := { promo.Spec with Freight := "f3" } }

/-- The stored Promotion carrying the create-actor and an abort request of
`alice`, stamped as not from the control plane. -/
def oldPromo : Promotion :=
  { promo with
    Annotations := mapSet (mapSet emptyMap AnnotationKeyCreateActor "kubernetes-user:alice")
      AnnotationKeyAbort "u abort kubernetes-user:alice" }

/-- The stored Promotion without an abort request. -/
def oldPromoNoAbort : Promotion :=
  { promo with
    Annotations := mapSet emptyMap AnnotationKeyCreateActor "kubernetes-user:alice" }

/-- The decoder of the instance: it knows the two stored Promotions. -/
def decoder : Decoder :=
  { DecodeRaw := fun raw =>
      if raw = "old" then .ok oldPromo
      else if raw = "old-no-abort" then .ok oldPromoNoAbort
      else .error (.errorf "cannot decode") }

/-- The user `alice`. -/
def alice : UserInfo := { Username := "alice", UID := "u-1", Groups := some ["dev"] }

/-- The user `mallory`. -/
def mallory : UserInfo := { Username := "mallory", UID := "u-2", Groups := some ["dev"] }

/-- The control plane. -/
def controller : UserInfo := { Username := "kargo-controller", UID := "u-0", Groups := none }

/-- The context of a request by the given user. -/
def ctxOf (op : AdmissionOperation) (user : UserInfo) (old : String) : Context :=
  { request := some { Operation := op, UserInfo := user, OldObject := old } }

/-- The webhook wired by `newWebhook` over an access-review service. -/
def webhook (c : Client) : Webhook := newWebhook lib cfg c decoder

/-- A candidate submitted by `mallory` that claims `mallory` as its creator and
repeats the stored abort request of `alice`, with the control-plane flag set. -/
def promoForged : Promotion :=
  { promo with
    Annotations := mapSet (mapSet emptyMap AnnotationKeyCreateActor "kubernetes-user:mallory")
      AnnotationKeyAbort "c abort kubernetes-user:alice" }

/-- A candidate that asks for an abort, without naming an actor. -/
def promoAbort : Promotion :=
  { promo with Annotations := mapSet emptyMap AnnotationKeyAbort "u abort " }

/-- A candidate that carries a shard label of its own and one other label. -/
def promoLabelled : Promotion :=
  { promo with Labels := mapSet (mapSet emptyMap LabelKeyShard "shard-b") "team" "payments" }

/-- A candidate without steps. -/
def promoNoSteps : Promotion :=
  { promo with Spec := { promo.Spec with Steps := some [] } }

/-- A candidate whose target Stage does not exist, carrying a shard label. -/
def promoNoStage : Promotion :=
  { promoLabelled with Spec := { promo.Spec with Stage := "missing" } }

/-- A candidate that carries two owner references of its own. -/
def promoOwned : Promotion :=
  { promo with
    OwnerReferences := some
      [{ APIVersion := "v1", Kind := "ConfigMap", Name := "cm", UID := "uid-7",
         Controller := none, BlockOwnerDeletion := none },
       { APIVersion := "kargo.akuity.io/v1alpha1", Kind := "Stage", Name := "other",
         UID := "uid-8", Controller := some true, BlockOwnerDeletion := some true }] }

/-- A candidate submitted with a create-actor of its own. -/
def promoActor : Promotion :=
  { promo with
    Annotations := mapSet emptyMap AnnotationKeyCreateActor "kubernetes-user:somebody" }

end Example

/-! ## Frame lemmas for the defaulting hook -/

/-- The abort reconciliation either returns the Promotion as it is or rewrites
its abort annotation. -/
theorem setAbortAnnotationActor_cases (L : Lib) (w : Webhook) (req : Request)
    (existing : Option Promotion) (updated : Promotion) :
    setAbortAnnotationActor L w req existing updated = updated ∨
    ∃ s, setAbortAnnotationActor L w req existing updated =
      { updated with Annotations := mapSet updated.Annotations AnnotationKeyAbort s } := by
  unfold setAbortAnnotationActor
  cases AbortPromotionAnnotationValue L updated.Annotations with
  | none => exact Or.inl rfl
  | some a =>
    dsimp only
    split_ifs
    all_goals first | exact Or.inl rfl | exact Or.inr ⟨_, rfl⟩

/-- The abort reconciliation writes no annotation other than the abort one. -/
theorem setAbortAnnotationActor_annotations_of_ne (L : Lib) (w : Webhook) (req : Request)
    (existing : Option Promotion) (updated : Promotion) (k : String)
    (hk : k ≠ AnnotationKeyAbort) :
    (setAbortAnnotationActor L w req existing updated).Annotations k = updated.Annotations k := by
  rcases setAbortAnnotationActor_cases L w req existing updated with h | ⟨s, h⟩
  · rw [h]
  · rw [h]
    simp [mapSet, hk]

/-- The abort reconciliation changes nothing but the annotations. -/
theorem setAbortAnnotationActor_frame (L : Lib) (w : Webhook) (req : Request)
    (existing : Option Promotion) (updated : Promotion) :
    (setAbortAnnotationActor L w req existing updated).Name = updated.Name ∧
    (setAbortAnnotationActor L w req existing updated).Namespace = updated.Namespace ∧
    (setAbortAnnotationActor L w req existing updated).Labels = updated.Labels ∧
    (setAbortAnnotationActor L w req existing updated).OwnerReferences = updated.OwnerReferences ∧
    (setAbortAnnotationActor L w req existing updated).Spec = updated.Spec := by
  rcases setAbortAnnotationActor_cases L w req existing updated with h | ⟨s, h⟩ <;> simp [h]

/-- The second half of `Default` changes nothing but labels and owner
references. -/
theorem defaultFromStage_frame (L : Lib) (w : Webhook) (ctx : Context) (promo : Promotion) :
    (defaultFromStage L w ctx promo).1.Name = promo.Name ∧
    (defaultFromStage L w ctx promo).1.Namespace = promo.Namespace ∧
    (defaultFromStage L w ctx promo).1.Annotations = promo.Annotations ∧
    (defaultFromStage L w ctx promo).1.Spec = promo.Spec := by
  unfold defaultFromStage
  split
  · simp
  · simp
  · split
    · simp
    · split <;> simp

/-- When the second half of `Default` succeeds, the Stage was found, the
Promotion has a step, the shard label mirrors the Stage's shard, the other
labels are kept and the owner reference is the controller reference to the
Stage. -/
theorem defaultFromStage_ok (L : Lib) (w : Webhook) (ctx : Context) (promo : Promotion)
    (hok : (defaultFromStage L w ctx promo).2 = none) :
    ∃ stage,
      w.getStageFn ctx w.client { Namespace := promo.Namespace, Name := promo.Spec.Stage } =
        .ok (some stage) ∧
      len promo.Spec.Steps ≠ 0 ∧
      (defaultFromStage L w ctx promo).1.Labels LabelKeyShard =
        (if stage.Spec.Shard = "" then none else some stage.Spec.Shard) ∧
      (∀ k, k ≠ LabelKeyShard →
        (defaultFromStage L w ctx promo).1.Labels k = promo.Labels k) ∧
      (defaultFromStage L w ctx promo).1.OwnerReferences = some [NewControllerRef L stage] := by
  unfold defaultFromStage at hok ⊢
  split at hok
  · simp at hok
  · simp at hok
  · rename_i stage hstage
    split at hok
    · simp at hok
    · rename_i hsteps
      refine ⟨stage, ?_, hsteps, ?_⟩
      · simpa using hstage
      · simp only [hstage, hsteps, if_false]
        by_cases hs : stage.Spec.Shard = ""
        · simp [hs, mapDelete]
          intro k hk
          simp [hk]
        · simp [hs, mapSet]
          intro k hk
          simp [hk]

/-- The abort annotation and the create-actor annotation are different keys. -/
theorem abortKey_ne_createActorKey : AnnotationKeyAbort ≠ AnnotationKeyCreateActor := by
  decide

/-- The abort request read from the annotations depends on the abort annotation
only. -/
theorem AbortPromotionAnnotationValue_congr (L : Lib) (m m2 : StrMap)
    (h : m AnnotationKeyAbort = m2 AnnotationKeyAbort) :
    AbortPromotionAnnotationValue L m = AbortPromotionAnnotationValue L m2 := by
  unfold AbortPromotionAnnotationValue
  rw [h]

/-- The abort annotation after the abort reconciliation: as submitted when the
candidate carries no request or one equal to the previous version's, the
serialization of the stamped request otherwise. -/
theorem setAbortAnnotationActor_abort (L : Lib) (w : Webhook) (req : Request)
    (existing : Option Promotion) (updated : Promotion) :
    (setAbortAnnotationActor L w req existing updated).Annotations AnnotationKeyAbort =
      match AbortPromotionAnnotationValue L updated.Annotations with
      | none => updated.Annotations AnnotationKeyAbort
      | some abortReq =>
        if abortReq.Equals (previousAbortRequest L existing) then
          updated.Annotations AnnotationKeyAbort
        else
          some (L.abortRequestString
            { Action := abortReq.Action
              Actor :=
                if w.isRequestFromKargoControlplaneFn req then abortReq.Actor
                else L.FormatEventKubernetesUserActor req.UserInfo
              ControlPlane := w.isRequestFromKargoControlplaneFn req }) := by
  unfold setAbortAnnotationActor previousAbortRequest
  cases hcand : AbortPromotionAnnotationValue L updated.Annotations with
  | none => rfl
  | some a =>
    cases existing with
    | none =>
      cases hcp : w.isRequestFromKargoControlplaneFn req <;>
        simp [AbortPromotionRequest.Equals, mapSet, hcp]
    | some old =>
      cases hold : AbortPromotionAnnotationValue L old.Annotations with
      | none =>
        cases hcp : w.isRequestFromKargoControlplaneFn req <;>
          simp [AbortPromotionRequest.Equals, mapSet, hcp, hold]
      | some o =>
        cases heq : a.Equals (some o) <;>
          cases hcp : w.isRequestFromKargoControlplaneFn req <;>
            simp [mapSet, hcp, heq, hold]

/-- The abort annotation after the abort reconciliation depends on the
candidate through its abort annotation only. -/
theorem setAbortAnnotationActor_abort_congr (L : Lib) (w : Webhook) (req : Request)
    (existing : Option Promotion) (u u2 : Promotion)
    (h : u.Annotations AnnotationKeyAbort = u2.Annotations AnnotationKeyAbort) :
    (setAbortAnnotationActor L w req existing u).Annotations AnnotationKeyAbort =
      (setAbortAnnotationActor L w req existing u2).Annotations AnnotationKeyAbort := by
  rw [setAbortAnnotationActor_abort, setAbortAnnotationActor_abort,
    AbortPromotionAnnotationValue_congr L _ _ h, h]

/-- The annotation writes of the create case change nothing but annotations. -/
theorem defaultCreateAnnotations_frame (L : Lib) (w : Webhook) (req : Request)
    (promo : Promotion) :
    (defaultCreateAnnotations L w req promo).Name = promo.Name ∧
    (defaultCreateAnnotations L w req promo).Namespace = promo.Namespace ∧
    (defaultCreateAnnotations L w req promo).Labels = promo.Labels ∧
    (defaultCreateAnnotations L w req promo).OwnerReferences = promo.OwnerReferences ∧
    (defaultCreateAnnotations L w req promo).Spec = promo.Spec := by
  unfold defaultCreateAnnotations
  simp only [setAbortAnnotationActor_frame]
  split <;> simp

/-- The annotation writes of the update case change nothing but annotations. -/
theorem defaultUpdateAnnotations_frame (L : Lib) (w : Webhook) (req : Request)
    (oldPromo promo : Promotion) :
    (defaultUpdateAnnotations L w req oldPromo promo).Name = promo.Name ∧
    (defaultUpdateAnnotations L w req oldPromo promo).Namespace = promo.Namespace ∧
    (defaultUpdateAnnotations L w req oldPromo promo).Labels = promo.Labels ∧
    (defaultUpdateAnnotations L w req oldPromo promo).OwnerReferences = promo.OwnerReferences ∧
    (defaultUpdateAnnotations L w req oldPromo promo).Spec = promo.Spec := by
  unfold defaultUpdateAnnotations
  simp only [setAbortAnnotationActor_frame]
  split <;> simp

/-- The unfolding of `Default` on a create request. -/
theorem Default_create (L : Lib) (w : Webhook) (ctx : Context) (obj : Promotion) (req : Request)
    (hreq : w.admissionRequestFromContextFn ctx = .ok req) (hop : req.Operation = .Create) :
    Default L w ctx obj =
      match L.InflateSteps w.client ctx (defaultCreateAnnotations L w req obj) with
      | .error err =>
        (defaultCreateAnnotations L w req obj,
          some (.wrapf "failed to inflate Promotion steps" err))
      | .ok steps =>
        defaultFromStage L w ctx
          { defaultCreateAnnotations L w req obj with
            Spec := { (defaultCreateAnnotations L w req obj).Spec with Steps := steps } } := by
  unfold Default
  simp only [hreq, hop]

/-- The unfolding of `Default` on an update request. -/
theorem Default_update (L : Lib) (w : Webhook) (ctx : Context) (obj : Promotion) (req : Request)
    (hreq : w.admissionRequestFromContextFn ctx = .ok req) (hop : req.Operation = .Update) :
    Default L w ctx obj =
      match w.decoder.DecodeRaw req.OldObject with
      | .error err => (obj, some (.wrapf "decode old object" err))
      | .ok oldPromo =>
        defaultFromStage L w ctx (defaultUpdateAnnotations L w req oldPromo obj) := by
  unfold Default
  simp only [hreq, hop]

/-- The unfolding of `Default` on a request that is neither a create nor an
update. -/
theorem Default_other (L : Lib) (w : Webhook) (ctx : Context) (obj : Promotion) (req : Request)
    (hreq : w.admissionRequestFromContextFn ctx = .ok req)
    (hc : req.Operation ≠ .Create) (hu : req.Operation ≠ .Update) :
    Default L w ctx obj = defaultFromStage L w ctx obj := by
  unfold Default
  simp only [hreq]

/-- The abort annotation with which `Default` returns on a create or update
whose previous version could be decoded: the one the abort reconciliation
computes from the submitted candidate and the previous version. -/
theorem Default_abort_key (L : Lib) (w : Webhook) (ctx : Context) (obj : Promotion)
    (req : Request) (existing : Option Promotion)
    (hreq : w.admissionRequestFromContextFn ctx = .ok req)
    (hop : req.Operation = .Create ∨ req.Operation = .Update)
    (hprev : decodeOldPromo w req = .ok existing) :
    (Default L w ctx obj).1.Annotations AnnotationKeyAbort =
      (setAbortAnnotationActor L w req existing obj).Annotations AnnotationKeyAbort := by
  rcases hop with hc | hu
  · have hex : existing = none := by
      simp [decodeOldPromo, hc] at hprev
      exact hprev.symm
    subst hex
    rw [Default_create L w ctx obj req hreq hc]
    have hpre : (defaultCreateAnnotations L w req obj).Annotations AnnotationKeyAbort =
        (setAbortAnnotationActor L w req none obj).Annotations AnnotationKeyAbort := by
      unfold defaultCreateAnnotations
      apply setAbortAnnotationActor_abort_congr
      split
      · simp [mapSet, abortKey_ne_createActorKey]
      · rfl
    cases hinf : L.InflateSteps w.client ctx (defaultCreateAnnotations L w req obj) with
    | error e => simpa using hpre
    | ok steps =>
      simp only [(defaultFromStage_frame L w ctx _).2.2.1]
      exact hpre
  · rw [Default_update L w ctx obj req hreq hu]
    cases hdec : w.decoder.DecodeRaw req.OldObject with
    | error e => simp [decodeOldPromo, hu, hdec] at hprev
    | ok old =>
      have hex : existing = some old := by
        simp [decodeOldPromo, hu, hdec] at hprev
        exact hprev.symm
      subst hex
      simp only [(defaultFromStage_frame L w ctx _).2.2.1]
      unfold defaultUpdateAnnotations
      apply setAbortAnnotationActor_abort_congr
      split
      · simp [mapSet, abortKey_ne_createActorKey]
      · simp [mapDelete, abortKey_ne_createActorKey]

/-- The promotion that reaches the second half of `Default` when `Default`
succeeds: it has the submitted name, namespace, labels, owner references,
target Stage and Freight. -/
theorem Default_ok_reaches_stage (L : Lib) (w : Webhook) (ctx : Context) (obj : Promotion)
    (hok : (Default L w ctx obj).2 = none) :
    ∃ promo,
      Default L w ctx obj = defaultFromStage L w ctx promo ∧
      promo.Name = obj.Name ∧ promo.Namespace = obj.Namespace ∧
      promo.Labels = obj.Labels ∧ promo.OwnerReferences = obj.OwnerReferences ∧
      promo.Spec.Stage = obj.Spec.Stage ∧ promo.Spec.Freight = obj.Spec.Freight := by
  cases hreq : w.admissionRequestFromContextFn ctx with
  | error e => simp [Default, hreq] at hok
  | ok req =>
    by_cases hc : req.Operation = .Create
    · rw [Default_create L w ctx obj req hreq hc] at hok ⊢
      cases hinf : L.InflateSteps w.client ctx (defaultCreateAnnotations L w req obj) with
      | error e => simp [hinf] at hok
      | ok steps =>
        refine ⟨_, rfl, ?_⟩
        simp [defaultCreateAnnotations_frame]
    · by_cases hu : req.Operation = .Update
      · rw [Default_update L w ctx obj req hreq hu] at hok ⊢
        cases hdec : w.decoder.DecodeRaw req.OldObject with
        | error e => simp [hdec] at hok
        | ok oldPromo =>
          refine ⟨_, rfl, ?_⟩
          simp [defaultUpdateAnnotations_frame]
      · rw [Default_other L w ctx obj req hreq hc hu]
        exact ⟨obj, rfl, rfl, rfl, rfl, rfl, rfl, rfl⟩

/-! ## Spec immutability on update -/

/-- C1: ValidateUpdate enforces spec immutability. Whenever the candidate's spec
differs from the previous spec (in any field, nested step fields included) the
result is an error; when moreover the authorizer allows "update" that error is
the Invalid error with exactly one field error, at path `spec`, "spec is
immutable"; and when the authorizer allows and the specs are identical the
update is accepted with no error. -/
theorem ValidateUpdate_spec_immutable (L : Lib) (w : Webhook) (ctx : Context)
    (oldObj newObj : Promotion) :
    (newObj.Spec ≠ oldObj.Spec → (ValidateUpdate L w ctx oldObj newObj).err ≠ none) ∧
    ((w.authorizeFn ctx newObj "update").err = none →
      (newObj.Spec ≠ oldObj.Spec →
        (ValidateUpdate L w ctx oldObj newObj).err =
          some (.invalid (promotionGroupKind L) newObj.Name
            [{ ErrType := .Invalid, Field := "spec", BadValue := .spec newObj.Spec,
               Detail := "spec is immutable" }])) ∧
      (newObj.Spec = oldObj.Spec → (ValidateUpdate L w ctx oldObj newObj).err = none)) := by
  refine ⟨?_, ?_⟩
  · intro hne
    cases h : (w.authorizeFn ctx newObj "update").err with
    | some e => simp [ValidateUpdate, h]
    | none => simp [ValidateUpdate, h, hne]
  · intro hallow
    refine ⟨?_, ?_⟩
    · intro hne
      simp [ValidateUpdate, hallow, hne, NewInvalid, fieldInvalid, NewPath]
      rfl
    · intro heq
      simp [ValidateUpdate, hallow, heq]

/-- C1, on the instance: with `alice` allowed to promote, changing the
configuration of a step is rejected with the single field error on `spec`, and
an update that keeps the spec is accepted. -/
theorem ValidateUpdate_spec_immutable_witness :
    (ValidateUpdate Example.lib (Example.webhook Example.allowAll)
        (Example.ctxOf .Update Example.alice "old") Example.oldPromo
        Example.promoStepChanged).err =
      some (.invalid { Group := "kargo.akuity.io", Kind := "Promotion" } "p1"
        [{ ErrType := .Invalid, Field := "spec", BadValue := .spec Example.promoStepChanged.Spec,
           Detail := "spec is immutable" }]) ∧
    (ValidateUpdate Example.lib (Example.webhook Example.allowAll)
        (Example.ctxOf .Update Example.alice "old") Example.oldPromo Example.promo).err = none :=
  ⟨((ValidateUpdate_spec_immutable Example.lib (Example.webhook Example.allowAll)
      (Example.ctxOf .Update Example.alice "old") Example.oldPromo
      Example.promoStepChanged).2 (by rfl)).1 (by decide),
   ((ValidateUpdate_spec_immutable Example.lib (Example.webhook Example.allowAll)
      (Example.ctxOf .Update Example.alice "old") Example.oldPromo
      Example.promo).2 (by rfl)).2 (by rfl)⟩

/-! ## The create-actor annotation on update -/

/-- C2: the create-actor annotation is write-once across updates. For every
update request on which Default succeeds, whoever the requester is and whatever
create-actor the candidate carries, the previous version was decoded and the
candidate's create-actor annotation after Default is exactly the previous
version's: the same value if it was present, absent if it was absent. -/
theorem Default_update_create_actor (L : Lib) (w : Webhook) (ctx : Context)
    (obj : Promotion) (req : Request)
    (hreq : w.admissionRequestFromContextFn ctx = .ok req)
    (hop : req.Operation = .Update)
    (hok : (Default L w ctx obj).2 = none) :
    ∃ oldPromo, w.decoder.DecodeRaw req.OldObject = .ok oldPromo ∧
      (Default L w ctx obj).1.Annotations AnnotationKeyCreateActor =
        oldPromo.Annotations AnnotationKeyCreateActor := by
  rw [Default_update L w ctx obj req hreq hop] at hok ⊢
  cases hdec : w.decoder.DecodeRaw req.OldObject with
  | error e => simp [hdec] at hok
  | ok oldPromo =>
    refine ⟨oldPromo, rfl, ?_⟩
    simp only [(defaultFromStage_frame L w ctx _).2.2.1]
    unfold defaultUpdateAnnotations
    rw [setAbortAnnotationActor_annotations_of_ne L w req _ _ _ (by decide)]
    cases hold : oldPromo.Annotations AnnotationKeyCreateActor with
    | none => simp [mapDelete]
    | some v => simp [mapSet]

/-- C2, on the instance: `mallory` updates the Promotion that `alice` created
and submits `mallory` as create-actor; after Default the create-actor is
`alice` again. -/
theorem Default_update_create_actor_witness :
    (Example.webhook Example.allowAll).admissionRequestFromContextFn
        (Example.ctxOf .Update Example.mallory "old") =
      .ok { Operation := .Update, UserInfo := Example.mallory, OldObject := "old" } ∧
    (Default Example.lib (Example.webhook Example.allowAll)
        (Example.ctxOf .Update Example.mallory "old") Example.promoForged).2 = none ∧
    Example.promoForged.Annotations AnnotationKeyCreateActor = some "kubernetes-user:mallory" ∧
    ∃ oldPromo, Example.decoder.DecodeRaw "old" = .ok oldPromo ∧
      (Default Example.lib (Example.webhook Example.allowAll)
          (Example.ctxOf .Update Example.mallory "old")
          Example.promoForged).1.Annotations AnnotationKeyCreateActor =
        oldPromo.Annotations AnnotationKeyCreateActor :=
  ⟨rfl, by decide, by decide,
    Default_update_create_actor Example.lib (Example.webhook Example.allowAll)
      (Example.ctxOf .Update Example.mallory "old") Example.promoForged
      { Operation := .Update, UserInfo := Example.mallory, OldObject := "old" }
      rfl rfl (by decide)⟩

/-! ## Authorization -/

/-- The webhook built by `newWebhook` has `authorize` as its authorizer. -/
theorem newWebhook_authorizeFn (L : Lib) (cfg : Config) (kubeClient : Client)
    (decoder : Decoder) :
    (newWebhook L cfg kubeClient decoder).authorizeFn =
      authorize L (newWebhook L cfg kubeClient decoder) :=
  rfl

/-- When `authorize` returns no error, the admission request was retrieved, the
access review was submitted without error and the answer allows. -/
theorem authorize_ok (L : Lib) (w : Webhook) (ctx : Context) (promo : Promotion)
    (action : String) (h : (authorize L w ctx promo action).err = none) :
    ∃ req answered,
      w.admissionRequestFromContextFn ctx = .ok req ∧
      (authorize L w ctx promo action).effects =
        [.createSubjectAccessReview (accessReviewFor L req promo)] ∧
      w.createSubjectAccessReviewFn ctx (accessReviewFor L req promo) = .ok answered ∧
      answered.Status.Allowed = true := by
  unfold authorize at h ⊢
  cases hreq : w.admissionRequestFromContextFn ctx with
  | error e => simp [hreq] at h
  | ok req =>
    simp only [hreq] at h ⊢
    cases hsar : w.createSubjectAccessReviewFn ctx (accessReviewFor L req promo) with
    | error e => simp [hsar] at h
    | ok answered =>
      simp only [hsar] at h ⊢
      cases hallowed : answered.Status.Allowed with
      | false => simp [hallowed] at h
      | true => exact ⟨req, answered, rfl, by simp [hallowed], hsar, hallowed⟩

/-- When the access-review call fails, `authorize` returns a Forbidden error
that says so. -/
theorem authorize_of_review_error (L : Lib) (w : Webhook) (ctx : Context) (promo : Promotion)
    (action : String) (req : Request) (e : GoError)
    (hreq : w.admissionRequestFromContextFn ctx = .ok req)
    (hsar : w.createSubjectAccessReviewFn ctx (accessReviewFor L req promo) = .error e) :
    (authorize L w ctx promo action).err =
      some (NewForbidden (promotionGroupResource L) promo.Name
        (.errorf ("error creating SubjectAccessReview; refusing to " ++ action ++
          " Promotion"))) := by
  simp [authorize, hreq, hsar]

/-- When the access review is answered "not allowed", `authorize` returns a
Forbidden error that names the subject, the action and the Stage. -/
theorem authorize_of_denied (L : Lib) (w : Webhook) (ctx : Context) (promo : Promotion)
    (action : String) (req : Request) (answered : SubjectAccessReview)
    (hreq : w.admissionRequestFromContextFn ctx = .ok req)
    (hsar : w.createSubjectAccessReviewFn ctx (accessReviewFor L req promo) = .ok answered)
    (hdenied : answered.Status.Allowed = false) :
    (authorize L w ctx promo action).err =
      some (NewForbidden (promotionGroupResource L) promo.Name
        (.errorf ("subject " ++ L.quote req.UserInfo.Username ++ " is not permitted to " ++
          action ++ " Promotions for Stage " ++ L.quote promo.Spec.Stage))) := by
  simp [authorize, hreq, hsar, hdenied]

/-- ValidateCreate accepts only if its authorizer returned no error, and then
the calls of the authorizer are among its own. -/
theorem ValidateCreate_ok_authorized (L : Lib) (w : Webhook) (ctx : Context) (obj : Promotion)
    (h : (ValidateCreate L w ctx obj).err = none) :
    (w.authorizeFn ctx obj "create").err = none ∧
    ∀ e, e ∈ (w.authorizeFn ctx obj "create").effects → e ∈ (ValidateCreate L w ctx obj).effects := by
  unfold ValidateCreate at h ⊢
  cases hproj : w.validateProjectFn ctx w.client obj with
  | some err =>
    simp only [hproj] at h
    cases hs : asStatusError err with
    | some se => simp [hs] at h
    | none =>
      simp only [hs] at h
      cases hf : asFieldError err with
      | some fe => simp [hf, NewInvalid] at h
      | none => simp [hf, NewInternalError] at h
  | none =>
    simp only [hproj] at h ⊢
    cases hauth : (w.authorizeFn ctx obj "create").err with
    | some err => simp [hauth] at h
    | none =>
      refine ⟨rfl, ?_⟩
      simp only [hauth] at h ⊢
      cases hreq : w.admissionRequestFromContextFn ctx with
      | error e => simp [hreq] at h
      | ok req =>
        simp only [hreq] at h ⊢
        cases hstage : w.getStageFn ctx w.client
            { Namespace := obj.Namespace, Name := obj.Spec.Stage } with
        | error e => simp [hstage] at h
        | ok stage =>
          simp only [hstage] at h ⊢
          cases hfreight : w.getFreightFn ctx w.client
              { Namespace := obj.Namespace, Name := obj.Spec.Freight } with
          | error e => simp [hfreight] at h
          | ok freight =>
            simp only [hfreight] at h ⊢
            cases hav : L.IsFreightAvailable stage freight with
            | false => simp [hav] at h
            | true =>
              intro e he
              simp [hav, he]

/-- ValidateUpdate accepts only if its authorizer returned no error, and its
calls are those of the authorizer. -/
theorem ValidateUpdate_ok_authorized (L : Lib) (w : Webhook) (ctx : Context)
    (oldObj newObj : Promotion) (h : (ValidateUpdate L w ctx oldObj newObj).err = none) :
    (w.authorizeFn ctx newObj "update").err = none ∧
    (ValidateUpdate L w ctx oldObj newObj).effects = (w.authorizeFn ctx newObj "update").effects := by
  unfold ValidateUpdate at h ⊢
  cases hauth : (w.authorizeFn ctx newObj "update").err with
  | some err => simp [hauth] at h
  | none =>
    refine ⟨rfl, ?_⟩
    simp only [hauth]
    split <;> rfl

/-- C3: authorization is fail-closed. With `authorize` wired as the authorizer,
each of ValidateCreate, ValidateUpdate and ValidateDelete accepts only if the
admission request was retrieved and the access review it submitted was created
without error and answered "allowed"; in particular, when the access-review
call returns an error, each of the three returns an error. -/
theorem authorization_fail_closed (L : Lib) (w : Webhook) (ctx : Context)
    (oldObj obj : Promotion) (hw : w.authorizeFn = authorize L w) :
    (∀ res, res ∈ [ValidateCreate L w ctx obj, ValidateUpdate L w ctx oldObj obj,
          ValidateDelete w ctx obj] →
        res.err = none →
        ∃ req answered,
          w.admissionRequestFromContextFn ctx = .ok req ∧
          Effect.createSubjectAccessReview (accessReviewFor L req obj) ∈ res.effects ∧
          w.createSubjectAccessReviewFn ctx (accessReviewFor L req obj) = .ok answered ∧
          answered.Status.Allowed = true) ∧
    ((∀ review, ∃ e, w.createSubjectAccessReviewFn ctx review = .error e) →
      (ValidateCreate L w ctx obj).err ≠ none ∧
      (ValidateUpdate L w ctx oldObj obj).err ≠ none ∧
      (ValidateDelete w ctx obj).err ≠ none) := by
  have key : ∀ res, res ∈ [ValidateCreate L w ctx obj, ValidateUpdate L w ctx oldObj obj,
          ValidateDelete w ctx obj] →
        res.err = none →
        ∃ req answered,
          w.admissionRequestFromContextFn ctx = .ok req ∧
          Effect.createSubjectAccessReview (accessReviewFor L req obj) ∈ res.effects ∧
          w.createSubjectAccessReviewFn ctx (accessReviewFor L req obj) = .ok answered ∧
          answered.Status.Allowed = true := by
    intro res hres hnone
    simp only [List.mem_cons, List.mem_singleton, List.not_mem_nil, or_false] at hres
    rcases hres with rfl | rfl | rfl
    · obtain ⟨hauth, hsub⟩ := ValidateCreate_ok_authorized L w ctx obj hnone
      rw [hw] at hauth hsub
      obtain ⟨req, answered, hreq, heff, hsar, hallowed⟩ := authorize_ok L w ctx obj "create" hauth
      exact ⟨req, answered, hreq, hsub _ (by simp [heff]), hsar, hallowed⟩
    · obtain ⟨hauth, heq⟩ := ValidateUpdate_ok_authorized L w ctx oldObj obj hnone
      rw [hw] at hauth heq
      obtain ⟨req, answered, hreq, heff, hsar, hallowed⟩ := authorize_ok L w ctx obj "update" hauth
      exact ⟨req, answered, hreq, by simp [heq, heff], hsar, hallowed⟩
    · have hauth : (authorize L w ctx obj "delete").err = none := by
        simpa [ValidateDelete, hw] using hnone
      obtain ⟨req, answered, hreq, heff, hsar, hallowed⟩ := authorize_ok L w ctx obj "delete" hauth
      exact ⟨req, answered, hreq, by simp [ValidateDelete, hw, heff], hsar, hallowed⟩
  refine ⟨key, ?_⟩
  intro hfail
  have no : ∀ res, res ∈ [ValidateCreate L w ctx obj, ValidateUpdate L w ctx oldObj obj,
      ValidateDelete w ctx obj] → res.err ≠ none := by
    intro res hres hnone
    obtain ⟨req, answered, _, _, hsar, _⟩ := key res hres hnone
    obtain ⟨e, he⟩ := hfail (accessReviewFor L req obj)
    rw [he] at hsar
    cases hsar
  exact ⟨no _ (by simp), no _ (by simp), no _ (by simp)⟩

/-- C3, on the instance: over an access-review service that cannot be reached,
the webhook built by `newWebhook` rejects the create, the update and the delete
of a Promotion that is otherwise in order. -/
theorem authorization_fail_closed_witness :
    (Example.webhook Example.unavailable).authorizeFn =
      authorize Example.lib (Example.webhook Example.unavailable) ∧
    (ValidateCreate Example.lib (Example.webhook Example.unavailable)
      (Example.ctxOf .Create Example.alice "") Example.promo).err ≠ none ∧
    (ValidateUpdate Example.lib (Example.webhook Example.unavailable)
      (Example.ctxOf .Create Example.alice "") Example.oldPromo Example.promo).err ≠ none ∧
    (ValidateDelete (Example.webhook Example.unavailable)
      (Example.ctxOf .Create Example.alice "") Example.promo).err ≠ none :=
  ⟨rfl,
    (authorization_fail_closed Example.lib (Example.webhook Example.unavailable)
      (Example.ctxOf .Create Example.alice "") Example.oldPromo Example.promo rfl).2
      (fun _ => ⟨.errorf "connection refused", rfl⟩)⟩

/-! ## The freight availability gate -/

/-- C4: freight availability gates creation. When project validation passes,
the authorizer allows "create", the admission request is retrieved and the
Stage and Freight lookups return without error, ValidateCreate accepts if and
only if the Stage's freight-availability predicate holds for the resolved
Freight; otherwise it returns the Invalid error with exactly one field error,
at path `spec.freight`, whose bad value is the candidate's freight
identifier. -/
theorem ValidateCreate_freight_gate (L : Lib) (w : Webhook) (ctx : Context) (obj : Promotion)
    (req : Request) (stage : Option Stage) (freight : Option Freight)
    (hproj : w.validateProjectFn ctx w.client obj = none)
    (hauth : (w.authorizeFn ctx obj "create").err = none)
    (hreq : w.admissionRequestFromContextFn ctx = .ok req)
    (hstage : w.getStageFn ctx w.client
      { Namespace := obj.Namespace, Name := obj.Spec.Stage } = .ok stage)
    (hfreight : w.getFreightFn ctx w.client
      { Namespace := obj.Namespace, Name := obj.Spec.Freight } = .ok freight) :
    ((ValidateCreate L w ctx obj).err = none ↔ L.IsFreightAvailable stage freight = true) ∧
    (L.IsFreightAvailable stage freight = false →
      (ValidateCreate L w ctx obj).err =
        some (.invalid (promotionGroupKind L) obj.Name
          [{ ErrType := .Invalid, Field := "spec.freight", BadValue := .str obj.Spec.Freight,
             Detail := "Freight is not available to this Stage" }])) := by
  have hpath : NewPath ["spec", "freight"] = "spec.freight" := by decide
  cases hav : L.IsFreightAvailable stage freight with
  | false =>
    simp [ValidateCreate, hproj, hauth, hreq, hstage, hfreight, hav, NewInvalid, fieldInvalid,
      hpath]
  | true =>
    simp [ValidateCreate, hproj, hauth, hreq, hstage, hfreight, hav]

/-- C4, on the instance: `f3` is not available to the Stage, so creating a
Promotion of `f3` is rejected with the single field error on `spec.freight`
carrying `f3`. -/
theorem ValidateCreate_freight_gate_witness :
    Example.lib.IsFreightAvailable (some Example.stage)
      (some { Name := "f3", Namespace := "kargo-demo" }) = false ∧
    (ValidateCreate Example.lib (Example.webhook Example.allowAll)
      (Example.ctxOf .Create Example.alice "") Example.promoF3).err =
      some (.invalid { Group := "kargo.akuity.io", Kind := "Promotion" } "p1"
        [{ ErrType := .Invalid, Field := "spec.freight", BadValue := .str "f3",
           Detail := "Freight is not available to this Stage" }]) :=
  ⟨by decide,
    (ValidateCreate_freight_gate Example.lib (Example.webhook Example.allowAll)
      (Example.ctxOf .Create Example.alice "") Example.promoF3
      { Operation := .Create, UserInfo := Example.alice, OldObject := "" }
      (some Example.stage) (some { Name := "f3", Namespace := "kargo-demo" })
      rfl (by decide) rfl rfl rfl).2 (by decide)⟩

/-! ## The abort request -/

/-- C5: abort re-stamping. On a create or update whose candidate carries an
abort request, when the previous version is absent, or carries no abort
request, or carries one that differs (by `Equals`) from the candidate's, Default
rewrites the abort annotation to the serialization of the candidate's request
with the same action, the control-plane flag set to whether the request is from
the control plane, and the actor overwritten with the formatted requester
identity when the request is not from the control plane, left as supplied when
it is. -/
theorem Default_abort_restamp (L : Lib) (w : Webhook) (ctx : Context) (obj : Promotion)
    (req : Request) (existing : Option Promotion) (abortReq : AbortPromotionRequest)
    (hreq : w.admissionRequestFromContextFn ctx = .ok req)
    (hop : req.Operation = .Create ∨ req.Operation = .Update)
    (hprev : decodeOldPromo w req = .ok existing)
    (hcand : AbortPromotionAnnotationValue L obj.Annotations = some abortReq)
    (hchanged : existing = none ∨ previousAbortRequest L existing = none ∨
      abortReq.Equals (previousAbortRequest L existing) = false) :
    (Default L w ctx obj).1.Annotations AnnotationKeyAbort =
      some (L.abortRequestString
        { Action := abortReq.Action
          Actor :=
            if w.isRequestFromKargoControlplaneFn req then abortReq.Actor
            else L.FormatEventKubernetesUserActor req.UserInfo
          ControlPlane := w.isRequestFromKargoControlplaneFn req }) := by
  have hne : abortReq.Equals (previousAbortRequest L existing) = false := by
    rcases hchanged with h | h | h
    · subst h
      rfl
    · rw [h]
      rfl
    · exact h
  rw [Default_abort_key L w ctx obj req existing hreq hop hprev,
    setAbortAnnotationActor_abort, hcand]
  simp [hne]

/-- C5, on the instance: `mallory`, who is not the control plane, updates a
Promotion that carried no abort request and asks for an abort without naming an
actor; after Default the abort request names `mallory` as actor and its
control-plane flag is false. -/
theorem Default_abort_restamp_witness :
    (Example.webhook Example.allowAll).isRequestFromKargoControlplaneFn
      { Operation := .Update, UserInfo := Example.mallory, OldObject := "old-no-abort" } = false ∧
    AbortPromotionAnnotationValue Example.lib Example.promoAbort.Annotations =
      some { Action := "abort", Actor := "", ControlPlane := false } ∧
    AbortPromotionAnnotationValue Example.lib
      (Default Example.lib (Example.webhook Example.allowAll)
        (Example.ctxOf .Update Example.mallory "old-no-abort") Example.promoAbort).1.Annotations =
      some { Action := "abort", Actor := "kubernetes-user:mallory", ControlPlane := false } :=
  ⟨by decide, by decide, by
    have h := Default_abort_restamp Example.lib (Example.webhook Example.allowAll)
      (Example.ctxOf .Update Example.mallory "old-no-abort") Example.promoAbort
      { Operation := .Update, UserInfo := Example.mallory, OldObject := "old-no-abort" }
      (some Example.oldPromoNoAbort) { Action := "abort", Actor := "", ControlPlane := false }
      rfl (Or.inr rfl) rfl (by decide) (Or.inr (Or.inl (by decide)))
    unfold AbortPromotionAnnotationValue
    rw [h]
    decide⟩

/-- C6: abort idempotence. On an update whose candidate carries an abort request
equal (by `Equals`) to the previous version's, Default leaves the candidate's
abort annotation exactly as submitted, whoever the requester is; and on any
request whose candidate carries no abort request, Default leaves the abort
annotation as submitted, so it adds none. -/
theorem Default_abort_idempotent (L : Lib) (w : Webhook) (ctx : Context) (obj : Promotion) :
    (∀ req oldPromo abortReq,
      w.admissionRequestFromContextFn ctx = .ok req →
      req.Operation = .Update →
      w.decoder.DecodeRaw req.OldObject = .ok oldPromo →
      AbortPromotionAnnotationValue L obj.Annotations = some abortReq →
      abortReq.Equals (AbortPromotionAnnotationValue L oldPromo.Annotations) = true →
      (Default L w ctx obj).1.Annotations AnnotationKeyAbort =
        obj.Annotations AnnotationKeyAbort) ∧
    (AbortPromotionAnnotationValue L obj.Annotations = none →
      (Default L w ctx obj).1.Annotations AnnotationKeyAbort =
        obj.Annotations AnnotationKeyAbort) := by
  refine ⟨?_, ?_⟩
  · intro req oldPromo abortReq hreq hop hdec hcand heq
    have hprev : decodeOldPromo w req = .ok (some oldPromo) := by
      simp [decodeOldPromo, hop, hdec]
    rw [Default_abort_key L w ctx obj req (some oldPromo) hreq (Or.inr hop) hprev,
      setAbortAnnotationActor_abort, hcand]
    simp [previousAbortRequest, heq]
  · intro hnone
    cases hreq : w.admissionRequestFromContextFn ctx with
    | error e => simp [Default, hreq]
    | ok req =>
      by_cases hc : req.Operation = .Create
      · have hprev : decodeOldPromo w req = .ok none := by simp [decodeOldPromo, hc]
        rw [Default_abort_key L w ctx obj req none hreq (Or.inl hc) hprev,
          setAbortAnnotationActor_abort, hnone]
      · by_cases hu : req.Operation = .Update
        · cases hdec : w.decoder.DecodeRaw req.OldObject with
          | error e =>
            rw [Default_update L w ctx obj req hreq hu]
            simp [hdec]
          | ok oldPromo =>
            have hprev : decodeOldPromo w req = .ok (some oldPromo) := by
              simp [decodeOldPromo, hu, hdec]
            rw [Default_abort_key L w ctx obj req (some oldPromo) hreq (Or.inr hu) hprev,
              setAbortAnnotationActor_abort, hnone]
        · rw [Default_other L w ctx obj req hreq hc hu,
            (defaultFromStage_frame L w ctx obj).2.2.1]

/-- C6, on the instance: the control plane re-submits the Promotion with the
abort request that `alice` made and that is already stored; Default leaves the
annotation as it is, actor `alice` and control-plane flag false. -/
theorem Default_abort_idempotent_witness :
    (Default Example.lib (Example.webhook Example.allowAll)
        (Example.ctxOf .Update Example.controller "old")
        Example.oldPromo).1.Annotations AnnotationKeyAbort =
      some "u abort kubernetes-user:alice" :=
  ((Default_abort_idempotent Example.lib (Example.webhook Example.allowAll)
      (Example.ctxOf .Update Example.controller "old") Example.oldPromo).1
      { Operation := .Update, UserInfo := Example.controller, OldObject := "old" }
      Example.oldPromo
      { Action := "abort", Actor := "kubernetes-user:alice", ControlPlane := false }
      rfl rfl rfl (by decide) (by decide)).trans (by decide)

/-- The serialization of the instance keeps the control-plane flag. -/
theorem Example.parseAbort_abortString_flag (a r : AbortPromotionRequest)
    (h : Example.parseAbort (Example.abortString a) = some r) :
    r.ControlPlane = a.ControlPlane := by
  unfold Example.parseAbort Example.abortString at h
  cases hcp : a.ControlPlane <;> simp [hcp, Example.parseBody] at h <;>
    · obtain ⟨_, h⟩ := h
      rw [← h]

/-- C9, as stated, fails: `mallory`, who is not the control plane, re-submits
the stored abort request of `alice` (same action and actor) with the
control-plane flag set. Default succeeds and leaves the annotation as
submitted, so the flag is true after Default although the previous version's
flag is false. -/
theorem Default_abort_flag_counterexample :
    (Example.webhook Example.allowAll).isRequestFromKargoControlplaneFn
      { Operation := .Update, UserInfo := Example.mallory, OldObject := "old" } = false ∧
    (Default Example.lib (Example.webhook Example.allowAll)
      (Example.ctxOf .Update Example.mallory "old") Example.promoForged).2 = none ∧
    AbortPromotionAnnotationValue Example.lib
      (Default Example.lib (Example.webhook Example.allowAll)
        (Example.ctxOf .Update Example.mallory "old") Example.promoForged).1.Annotations =
      some { Action := "abort", Actor := "kubernetes-user:alice", ControlPlane := true } ∧
    AbortPromotionAnnotationValue Example.lib Example.oldPromo.Annotations =
      some { Action := "abort", Actor := "kubernetes-user:alice", ControlPlane := false } := by
  decide

/-- C9, amended: on a create or update whose requester is not the control plane
(the serialization keeping the flag), if the candidate's abort request after
Default has its control-plane flag set, then the previous version existed and
carried an abort request with the same action and actor, and Default left the
annotation exactly as the candidate submitted it: the flag is the one the
candidate supplied. Default itself never sets the flag for such a requester. -/
theorem Default_abort_flag_not_stamped (L : Lib) (w : Webhook) (ctx : Context)
    (obj : Promotion) (req : Request) (existing : Option Promotion)
    (r : AbortPromotionRequest)
    (hcodec : ∀ a b, L.parseAbortRequest (L.abortRequestString a) = some b →
      b.ControlPlane = a.ControlPlane)
    (hreq : w.admissionRequestFromContextFn ctx = .ok req)
    (hncp : w.isRequestFromKargoControlplaneFn req = false)
    (hop : req.Operation = .Create ∨ req.Operation = .Update)
    (hprev : decodeOldPromo w req = .ok existing)
    (hafter : AbortPromotionAnnotationValue L (Default L w ctx obj).1.Annotations = some r)
    (hflag : r.ControlPlane = true) :
    ∃ old oldReq,
      existing = some old ∧
      AbortPromotionAnnotationValue L old.Annotations = some oldReq ∧
      r.Equals (some oldReq) = true ∧
      AbortPromotionAnnotationValue L obj.Annotations = some r ∧
      (Default L w ctx obj).1.Annotations AnnotationKeyAbort =
        obj.Annotations AnnotationKeyAbort := by
  have hann := Default_abort_key L w ctx obj req existing hreq hop hprev
  rw [setAbortAnnotationActor_abort] at hann
  cases hcand : AbortPromotionAnnotationValue L obj.Annotations with
  | none =>
    rw [hcand] at hann
    rw [AbortPromotionAnnotationValue_congr L _ _ hann, hcand] at hafter
    cases hafter
  | some a =>
    rw [hcand] at hann
    cases heq : a.Equals (previousAbortRequest L existing) with
    | false =>
      simp only [heq, hncp] at hann
      unfold AbortPromotionAnnotationValue at hafter
      rw [hann] at hafter
      have := hcodec _ _ hafter
      simp [hflag] at this
    | true =>
      simp only [heq, if_true] at hann
      rw [AbortPromotionAnnotationValue_congr L _ _ hann, hcand] at hafter
      cases hafter
      cases existing with
      | none => simp [previousAbortRequest, AbortPromotionRequest.Equals] at heq
      | some old =>
        cases hold : AbortPromotionAnnotationValue L old.Annotations with
        | none => simp [previousAbortRequest, hold, AbortPromotionRequest.Equals] at heq
        | some oldReq =>
          refine ⟨old, oldReq, rfl, hold, ?_, rfl, hann⟩
          simpa [previousAbortRequest, hold] using heq

/-- C9, amended, on the instance: the flag that is set after the update by
`mallory` is the one `mallory` submitted, on a request that repeats the action
and actor of the stored one. -/
theorem Default_abort_flag_not_stamped_witness :
    ∃ old oldReq,
      some Example.oldPromo = some old ∧
      AbortPromotionAnnotationValue Example.lib old.Annotations = some oldReq ∧
      AbortPromotionRequest.Equals
        { Action := "abort", Actor := "kubernetes-user:alice", ControlPlane := true }
        (some oldReq) = true ∧
      AbortPromotionAnnotationValue Example.lib Example.promoForged.Annotations =
        some { Action := "abort", Actor := "kubernetes-user:alice", ControlPlane := true } ∧
      (Default Example.lib (Example.webhook Example.allowAll)
          (Example.ctxOf .Update Example.mallory "old")
          Example.promoForged).1.Annotations AnnotationKeyAbort =
        Example.promoForged.Annotations AnnotationKeyAbort :=
  Default_abort_flag_not_stamped Example.lib (Example.webhook Example.allowAll)
    (Example.ctxOf .Update Example.mallory "old") Example.promoForged
    { Operation := .Update, UserInfo := Example.mallory, OldObject := "old" }
    (some Example.oldPromo)
    { Action := "abort", Actor := "kubernetes-user:alice", ControlPlane := true }
    Example.parseAbort_abortString_flag rfl (by decide) (Or.inr rfl) rfl (by decide) rfl

/-! ## Denial and failure of the access review -/

/-- The reason `authorize` gives for a denial is never the reason it gives for a
failed access-review call, whatever the quoted subject and Stage read. -/
theorem denial_message_ne_failure_message (user action stage action2 : String) :
    "subject " ++ user ++ " is not permitted to " ++ action ++
        " Promotions for Stage " ++ stage ≠
      "error creating SubjectAccessReview; refusing to " ++ action2 ++ " Promotion" := by
  intro h
  have := congrArg String.data h
  simp at this

/-- C7: a denial and a failed access-review call are to be different kinds of
result, a policy rejection that is not an internal error against an internal
error. The code does not keep them apart. At this input (`alice`, the Promotion
`p1` of the Stage `test`, project validation passing) over a service that
answers "not allowed", ValidateCreate and ValidateUpdate return an internal
error that wraps the Forbidden error of `authorize`, the kind they also return
over a service that cannot be reached, where the sibling ValidateDelete returns
the Forbidden error unchanged; and ValidateDelete returns a Forbidden error
over the service that cannot be reached as well. -/
theorem denial_and_failure_kinds_at_input :
    ((ValidateCreate Example.lib (Example.webhook Example.denyAll)
        (Example.ctxOf .Create Example.alice "") Example.promo).err =
      some (.internalError
        (.forbidden { Group := "kargo.akuity.io", Resource := "Promotion" } "p1"
          (.errorf
            "subject \"alice\" is not permitted to create Promotions for Stage \"test\""))) ∧
     (ValidateUpdate Example.lib (Example.webhook Example.denyAll)
        (Example.ctxOf .Update Example.alice "old") Example.oldPromo Example.oldPromo).err =
      some (.internalError
        (.forbidden { Group := "kargo.akuity.io", Resource := "Promotion" } "p1"
          (.errorf
            "subject \"alice\" is not permitted to update Promotions for Stage \"test\""))) ∧
     (ValidateDelete (Example.webhook Example.denyAll)
        (Example.ctxOf .Delete Example.alice "") Example.promo).err =
      some (.forbidden { Group := "kargo.akuity.io", Resource := "Promotion" } "p1"
        (.errorf
          "subject \"alice\" is not permitted to delete Promotions for Stage \"test\""))) ∧
    ((ValidateCreate Example.lib (Example.webhook Example.unavailable)
        (Example.ctxOf .Create Example.alice "") Example.promo).err =
      some (.internalError
        (.forbidden { Group := "kargo.akuity.io", Resource := "Promotion" } "p1"
          (.errorf "error creating SubjectAccessReview; refusing to create Promotion"))) ∧
     (ValidateUpdate Example.lib (Example.webhook Example.unavailable)
        (Example.ctxOf .Update Example.alice "old") Example.oldPromo Example.oldPromo).err =
      some (.internalError
        (.forbidden { Group := "kargo.akuity.io", Resource := "Promotion" } "p1"
          (.errorf "error creating SubjectAccessReview; refusing to update Promotion"))) ∧
     (ValidateDelete (Example.webhook Example.unavailable)
        (Example.ctxOf .Delete Example.alice "") Example.promo).err =
      some (.forbidden { Group := "kargo.akuity.io", Resource := "Promotion" } "p1"
        (.errorf "error creating SubjectAccessReview; refusing to delete Promotion"))) ∧
    ((ValidateCreate Example.lib (Example.webhook Example.denyAll)
        (Example.ctxOf .Create Example.alice "") Example.promo).err.bind reasonOf =
      some .InternalError ∧
     (ValidateCreate Example.lib (Example.webhook Example.unavailable)
        (Example.ctxOf .Create Example.alice "") Example.promo).err.bind reasonOf =
      some .InternalError) ∧
    ((ValidateUpdate Example.lib (Example.webhook Example.denyAll)
        (Example.ctxOf .Update Example.alice "old") Example.oldPromo
        Example.oldPromo).err.bind reasonOf =
      some .InternalError ∧
     (ValidateUpdate Example.lib (Example.webhook Example.unavailable)
        (Example.ctxOf .Update Example.alice "old") Example.oldPromo
        Example.oldPromo).err.bind reasonOf =
      some .InternalError) ∧
    ((ValidateDelete (Example.webhook Example.denyAll)
        (Example.ctxOf .Delete Example.alice "") Example.promo).err.bind reasonOf =
      some .Forbidden ∧
     (ValidateDelete (Example.webhook Example.unavailable)
        (Example.ctxOf .Delete Example.alice "") Example.promo).err.bind reasonOf =
      some .Forbidden) := by
  decide

/-- What the three hooks return, wired to `authorize`, when the access review is
answered "not allowed" and when the access-review call fails. ValidateDelete
returns the Forbidden error of `authorize`; ValidateUpdate and, when project
validation passes, ValidateCreate return that error wrapped in an internal
error. The Forbidden error of a denial names the subject, the action and the
Stage, that of a failed call says the SubjectAccessReview could not be created,
and the two always differ. -/
theorem denial_and_failure_by_reason_text (L : Lib) (w : Webhook) (ctx : Context)
    (oldObj obj : Promotion) (req : Request)
    (hw : w.authorizeFn = authorize L w)
    (hreq : w.admissionRequestFromContextFn ctx = .ok req) :
    (∀ answered,
      w.createSubjectAccessReviewFn ctx (accessReviewFor L req obj) = .ok answered →
      answered.Status.Allowed = false →
      (ValidateDelete w ctx obj).err =
        some (.forbidden (promotionGroupResource L) obj.Name
          (.errorf ("subject " ++ L.quote req.UserInfo.Username ++ " is not permitted to " ++
            "delete" ++ " Promotions for Stage " ++ L.quote obj.Spec.Stage))) ∧
      (ValidateUpdate L w ctx oldObj obj).err =
        some (.internalError (.forbidden (promotionGroupResource L) obj.Name
          (.errorf ("subject " ++ L.quote req.UserInfo.Username ++ " is not permitted to " ++
            "update" ++ " Promotions for Stage " ++ L.quote obj.Spec.Stage)))) ∧
      (w.validateProjectFn ctx w.client obj = none →
        (ValidateCreate L w ctx obj).err =
          some (.internalError (.forbidden (promotionGroupResource L) obj.Name
            (.errorf ("subject " ++ L.quote req.UserInfo.Username ++ " is not permitted to " ++
              "create" ++ " Promotions for Stage " ++ L.quote obj.Spec.Stage)))))) ∧
    (∀ e,
      w.createSubjectAccessReviewFn ctx (accessReviewFor L req obj) = .error e →
      (ValidateDelete w ctx obj).err =
        some (.forbidden (promotionGroupResource L) obj.Name
          (.errorf ("error creating SubjectAccessReview; refusing to " ++ "delete" ++
            " Promotion"))) ∧
      (ValidateUpdate L w ctx oldObj obj).err =
        some (.internalError (.forbidden (promotionGroupResource L) obj.Name
          (.errorf ("error creating SubjectAccessReview; refusing to " ++ "update" ++
            " Promotion")))) ∧
      (w.validateProjectFn ctx w.client obj = none →
        (ValidateCreate L w ctx obj).err =
          some (.internalError (.forbidden (promotionGroupResource L) obj.Name
            (.errorf ("error creating SubjectAccessReview; refusing to " ++ "create" ++
              " Promotion")))))) ∧
    (∀ action action2,
      GoError.forbidden (promotionGroupResource L) obj.Name
          (.errorf ("subject " ++ L.quote req.UserInfo.Username ++ " is not permitted to " ++
            action ++ " Promotions for Stage " ++ L.quote obj.Spec.Stage)) ≠
        GoError.forbidden (promotionGroupResource L) obj.Name
          (.errorf ("error creating SubjectAccessReview; refusing to " ++ action2 ++
            " Promotion"))) := by
  refine ⟨?_, ?_, ?_⟩
  · intro answered hsar hdenied
    refine ⟨?_, ?_, ?_⟩
    · have h := authorize_of_denied L w ctx obj "delete" req answered hreq hsar hdenied
      simpa [ValidateDelete, hw, NewForbidden] using h
    · have h := authorize_of_denied L w ctx obj "update" req answered hreq hsar hdenied
      simp [ValidateUpdate, hw, h, NewInternalError, NewForbidden]
    · intro hproj
      have h := authorize_of_denied L w ctx obj "create" req answered hreq hsar hdenied
      simp [ValidateCreate, hproj, hw, h, NewInternalError, NewForbidden]
  · intro e hsar
    refine ⟨?_, ?_, ?_⟩
    · have h := authorize_of_review_error L w ctx obj "delete" req e hreq hsar
      simpa [ValidateDelete, hw, NewForbidden] using h
    · have h := authorize_of_review_error L w ctx obj "update" req e hreq hsar
      simp [ValidateUpdate, hw, h, NewInternalError, NewForbidden]
    · intro hproj
      have h := authorize_of_review_error L w ctx obj "create" req e hreq hsar
      simp [ValidateCreate, hproj, hw, h, NewInternalError, NewForbidden]
  · intro action action2 h
    injection h with _ _ h
    injection h with h
    exact denial_message_ne_failure_message _ _ _ _ h

/-- On the instance: over the denying service the delete is refused with the
Forbidden error that names `alice`, the action and the Stage. -/
theorem denial_and_failure_by_reason_text_witness :
    (ValidateDelete (Example.webhook Example.denyAll)
      (Example.ctxOf .Delete Example.alice "") Example.promo).err =
      some (.forbidden { Group := "kargo.akuity.io", Resource := "Promotion" } "p1"
        (.errorf "subject \"alice\" is not permitted to delete Promotions for Stage \"test\"")) :=
  (((denial_and_failure_by_reason_text Example.lib (Example.webhook Example.denyAll)
      (Example.ctxOf .Delete Example.alice "") Example.promo Example.promo
      { Operation := .Delete, UserInfo := Example.alice, OldObject := "" } rfl rfl).1
      { Spec := (accessReviewFor Example.lib
          { Operation := .Delete, UserInfo := Example.alice, OldObject := "" } Example.promo).Spec
        Status := { Allowed := false } }
      rfl rfl).1).trans (by decide)

/-- The quoting of the instance escapes a backslash, as Go's `%q` does. -/
theorem Example.quoteText_backslash :
    Example.quoteText "corp\\alice" = "\"corp\\\\alice\"" := by
  decide

/-! ## The access review -/

/-- C8, as stated, fails: for the action "create" the access review that
`authorize` submits has the verb "promote", not the verb "create". -/
theorem authorize_verb_counterexample :
    (authorize Example.lib (Example.webhook Example.allowAll)
        (Example.ctxOf .Create Example.alice "") Example.promo "create").effects =
      [.createSubjectAccessReview
        { Spec :=
            { User := "alice"
              Groups := some ["dev"]
              ResourceAttributes := some
                { Group := "kargo.akuity.io", Resource := "stages", Name := "test",
                  Verb := "promote", Namespace := "kargo-demo" } }
          Status := { Allowed := false } }] ∧
    (authorize Example.lib (Example.webhook Example.allowAll)
        (Example.ctxOf .Create Example.alice "") Example.promo "create").effects ≠
      [.createSubjectAccessReview
        { Spec :=
            { User := "alice"
              Groups := some ["dev"]
              ResourceAttributes := some
                { Group := "kargo.akuity.io", Resource := "stages", Name := "test",
                  Verb := "create", Namespace := "kargo-demo" } }
          Status := { Allowed := false } }] := by
  decide

/-- C8, amended: for every Promotion and every action, when the admission
request is retrieved, `authorize` submits exactly one access review; it carries
the requester's username and groups and a resource descriptor with the Kargo
API group, resource kind "stages", name equal to the Promotion's target Stage,
namespace equal to the Promotion's namespace, and the fixed verb "promote",
whatever the action. -/
theorem authorize_access_review (L : Lib) (w : Webhook) (ctx : Context) (promo : Promotion)
    (action : String) (req : Request)
    (hreq : w.admissionRequestFromContextFn ctx = .ok req) :
    (authorize L w ctx promo action).effects =
      [.createSubjectAccessReview
        { Spec :=
            { User := req.UserInfo.Username
              Groups := req.UserInfo.Groups
              ResourceAttributes := some
                { Group := L.Group, Resource := "stages", Name := promo.Spec.Stage,
                  Verb := "promote", Namespace := promo.Namespace } }
          Status := { Allowed := false } }] := by
  unfold authorize
  simp only [hreq]
  cases hsar : w.createSubjectAccessReviewFn ctx (accessReviewFor L req promo) with
  | error e => rfl
  | ok answered =>
    cases hallowed : answered.Status.Allowed <;> simp [hallowed, accessReviewFor]

/-- C8, amended, on the instance: the access review for the deletion of the
Promotion by `alice`. -/
theorem authorize_access_review_witness :
    (authorize Example.lib (Example.webhook Example.allowAll)
        (Example.ctxOf .Delete Example.alice "") Example.promo "delete").effects =
      [.createSubjectAccessReview
        { Spec :=
            { User := "alice"
              Groups := some ["dev"]
              ResourceAttributes := some
                { Group := "kargo.akuity.io", Resource := "stages", Name := "test",
                  Verb := "promote", Namespace := "kargo-demo" } }
          Status := { Allowed := false } }] :=
  authorize_access_review Example.lib (Example.webhook Example.allowAll)
    (Example.ctxOf .Delete Example.alice "") Example.promo "delete"
    { Operation := .Delete, UserInfo := Example.alice, OldObject := "" } rfl

/-! ## Shard propagation -/

/-- C10: shard propagation. For every request on which Default succeeds, the
target Stage was resolved; the candidate's `shard` label afterwards is the
Stage's shard when that shard is non-empty and is absent when the Stage's shard
is empty, whatever shard label the candidate carried; every other label is as
submitted. -/
theorem Default_shard_label (L : Lib) (w : Webhook) (ctx : Context) (obj : Promotion)
    (hok : (Default L w ctx obj).2 = none) :
    ∃ stage,
      w.getStageFn ctx w.client { Namespace := obj.Namespace, Name := obj.Spec.Stage } =
        .ok (some stage) ∧
      (stage.Spec.Shard ≠ "" →
        (Default L w ctx obj).1.Labels LabelKeyShard = some stage.Spec.Shard) ∧
      (stage.Spec.Shard = "" → (Default L w ctx obj).1.Labels LabelKeyShard = none) ∧
      (∀ k, k ≠ LabelKeyShard → (Default L w ctx obj).1.Labels k = obj.Labels k) := by
  obtain ⟨promo, hdef, _, hns, hlabels, _, hstage, _⟩ := Default_ok_reaches_stage L w ctx obj hok
  rw [hdef] at hok ⊢
  obtain ⟨stage, hget, _, hshard, hother, _⟩ := defaultFromStage_ok L w ctx promo hok
  rw [hns, hstage] at hget
  refine ⟨stage, hget, ?_, ?_, ?_⟩
  · intro hne
    rw [hshard]
    simp [hne]
  · intro he
    rw [hshard]
    simp [he]
  · intro k hk
    rw [hother k hk, hlabels]

/-- C10, on the instance: a candidate that carries the label `shard=shard-b` is
given the shard `shard-a` of its Stage, and its label `team` is kept. -/
theorem Default_shard_label_witness :
    (Default Example.lib (Example.webhook Example.allowAll)
      (Example.ctxOf .Create Example.alice "") Example.promoLabelled).2 = none ∧
    Example.promoLabelled.Labels LabelKeyShard = some "shard-b" ∧
    ∃ stage,
      (Example.webhook Example.allowAll).getStageFn (Example.ctxOf .Create Example.alice "")
        (Example.webhook Example.allowAll).client
        { Namespace := Example.promoLabelled.Namespace,
          Name := Example.promoLabelled.Spec.Stage } = .ok (some stage) ∧
      (stage.Spec.Shard ≠ "" →
        (Default Example.lib (Example.webhook Example.allowAll)
          (Example.ctxOf .Create Example.alice "") Example.promoLabelled).1.Labels LabelKeyShard =
          some stage.Spec.Shard) ∧
      (stage.Spec.Shard = "" →
        (Default Example.lib (Example.webhook Example.allowAll)
          (Example.ctxOf .Create Example.alice "") Example.promoLabelled).1.Labels LabelKeyShard =
          none) ∧
      (∀ k, k ≠ LabelKeyShard →
        (Default Example.lib (Example.webhook Example.allowAll)
          (Example.ctxOf .Create Example.alice "") Example.promoLabelled).1.Labels k =
          Example.promoLabelled.Labels k) :=
  ⟨by decide, by decide,
    Default_shard_label Example.lib (Example.webhook Example.allowAll)
      (Example.ctxOf .Create Example.alice "") Example.promoLabelled (by decide)⟩

/-! ## Stage resolution and steps in the defaulting hook -/

/-- Without a step, the second half of `Default` returns an error. -/
theorem defaultFromStage_no_steps (L : Lib) (w : Webhook) (ctx : Context) (promo : Promotion)
    (h : len promo.Spec.Steps = 0) : (defaultFromStage L w ctx promo).2 ≠ none := by
  intro hok
  obtain ⟨_, _, hsteps, _⟩ := defaultFromStage_ok L w ctx promo hok
  exact hsteps h

/-- When the Stage is absent, the second half of `Default` returns the Promotion
as it is with the error that says the Stage could not be found. -/
theorem defaultFromStage_of_absent (L : Lib) (w : Webhook) (ctx : Context) (promo : Promotion)
    (h : w.getStageFn ctx w.client
      { Namespace := promo.Namespace, Name := promo.Spec.Stage } = .ok none) :
    defaultFromStage L w ctx promo =
      (promo, some (.errorf ("could not find Stage " ++ L.quote promo.Spec.Stage ++
        " in namespace " ++ L.quote promo.Namespace))) := by
  simp [defaultFromStage, h]

/-- When the Stage lookup fails, the second half of `Default` returns the
Promotion as it is with the lookup error, wrapped. -/
theorem defaultFromStage_of_error (L : Lib) (w : Webhook) (ctx : Context) (promo : Promotion)
    (e : GoError)
    (h : w.getStageFn ctx w.client
      { Namespace := promo.Namespace, Name := promo.Spec.Stage } = .error e) :
    defaultFromStage L w ctx promo =
      (promo, some (.wrapf ("error finding Stage " ++ L.quote promo.Spec.Stage ++
        " in namespace " ++ L.quote promo.Namespace) e)) := by
  simp [defaultFromStage, h]

/-- The annotations with which `Default` returns on a create request are those
written by the create case of the switch. -/
theorem Default_create_annotations (L : Lib) (w : Webhook) (ctx : Context) (obj : Promotion)
    (req : Request) (hreq : w.admissionRequestFromContextFn ctx = .ok req)
    (hop : req.Operation = .Create) :
    (Default L w ctx obj).1.Annotations = (defaultCreateAnnotations L w req obj).Annotations := by
  rw [Default_create L w ctx obj req hreq hop]
  cases hinf : L.InflateSteps w.client ctx (defaultCreateAnnotations L w req obj) with
  | error e => rfl
  | ok steps => simp only [(defaultFromStage_frame L w ctx _).2.2.1]

/-- C11: empty steps rejection. Whenever Default succeeds the Promotion it
returns has at least one step; on a create whose step expansion yields no step
Default returns an error, and on an update submitted without steps Default
returns an error. -/
theorem Default_rejects_empty_steps (L : Lib) (w : Webhook) (ctx : Context)
    (obj : Promotion) :
    ((Default L w ctx obj).2 = none → len (Default L w ctx obj).1.Spec.Steps ≠ 0) ∧
    (∀ req steps,
      w.admissionRequestFromContextFn ctx = .ok req →
      req.Operation = .Create →
      L.InflateSteps w.client ctx (defaultCreateAnnotations L w req obj) = .ok steps →
      len steps = 0 →
      (Default L w ctx obj).2 ≠ none) ∧
    (∀ req,
      w.admissionRequestFromContextFn ctx = .ok req →
      req.Operation = .Update →
      len obj.Spec.Steps = 0 →
      (Default L w ctx obj).2 ≠ none) := by
  refine ⟨?_, ?_, ?_⟩
  · intro hok
    obtain ⟨promo, hdef, _⟩ := Default_ok_reaches_stage L w ctx obj hok
    rw [hdef] at hok ⊢
    obtain ⟨_, _, hsteps, _⟩ := defaultFromStage_ok L w ctx promo hok
    rw [(defaultFromStage_frame L w ctx promo).2.2.2]
    exact hsteps
  · intro req steps hreq hop hinf hlen
    rw [Default_create L w ctx obj req hreq hop]
    simp only [hinf]
    exact defaultFromStage_no_steps L w ctx _ hlen
  · intro req hreq hop hlen
    rw [Default_update L w ctx obj req hreq hop]
    cases hdec : w.decoder.DecodeRaw req.OldObject with
    | error e => simp
    | ok oldPromo =>
      apply defaultFromStage_no_steps
      rw [(defaultUpdateAnnotations_frame L w req oldPromo obj).2.2.2.2]
      exact hlen

/-- C11, on the instance: an update that is submitted without steps is refused
by Default, as is a create whose expansion yields no step. -/
theorem Default_rejects_empty_steps_witness :
    len Example.promoNoSteps.Spec.Steps = 0 ∧
    (Default Example.lib (Example.webhook Example.allowAll)
      (Example.ctxOf .Update Example.alice "old") Example.promoNoSteps).2 ≠ none ∧
    (Default Example.lib (Example.webhook Example.allowAll)
      (Example.ctxOf .Create Example.alice "") Example.promoNoSteps).2 ≠ none :=
  ⟨by decide,
    (Default_rejects_empty_steps Example.lib (Example.webhook Example.allowAll)
      (Example.ctxOf .Update Example.alice "old") Example.promoNoSteps).2.2
      { Operation := .Update, UserInfo := Example.alice, OldObject := "old" }
      rfl rfl (by decide),
    (Default_rejects_empty_steps Example.lib (Example.webhook Example.allowAll)
      (Example.ctxOf .Create Example.alice "") Example.promoNoSteps).2.1
      { Operation := .Create, UserInfo := Example.alice, OldObject := "" } (some [])
      rfl rfl rfl (by decide)⟩

/-! ## The create-actor annotation on create -/

/-- C12: create-actor on create. On a create request that is not from the
control plane, the candidate's create-actor annotation after Default is the
formatted identity of the requester, whatever create-actor the candidate was
submitted with; on a create request from the control plane Default does not
write the annotation: it is as submitted, so absent when none was submitted. -/
theorem Default_create_actor_on_create (L : Lib) (w : Webhook) (ctx : Context)
    (obj : Promotion) (req : Request)
    (hreq : w.admissionRequestFromContextFn ctx = .ok req)
    (hop : req.Operation = .Create) :
    (w.isRequestFromKargoControlplaneFn req = false →
      (Default L w ctx obj).1.Annotations AnnotationKeyCreateActor =
        some (L.FormatEventKubernetesUserActor req.UserInfo)) ∧
    (w.isRequestFromKargoControlplaneFn req = true →
      (Default L w ctx obj).1.Annotations AnnotationKeyCreateActor =
        obj.Annotations AnnotationKeyCreateActor ∧
      (obj.Annotations AnnotationKeyCreateActor = none →
        (Default L w ctx obj).1.Annotations AnnotationKeyCreateActor = none)) := by
  have hkey : AnnotationKeyCreateActor ≠ AnnotationKeyAbort := by decide
  rw [Default_create_annotations L w ctx obj req hreq hop]
  unfold defaultCreateAnnotations
  rw [setAbortAnnotationActor_annotations_of_ne L w req _ _ _ hkey]
  refine ⟨?_, ?_⟩
  · intro hcp
    simp [hcp, mapSet]
  · intro hcp
    simp [hcp]

/-- C12, on the instance: `alice` creates a Promotion submitted with the
create-actor `somebody`; after Default the create-actor is `alice`. -/
theorem Default_create_actor_on_create_witness :
    Example.promoActor.Annotations AnnotationKeyCreateActor = some "kubernetes-user:somebody" ∧
    (Default Example.lib (Example.webhook Example.allowAll)
      (Example.ctxOf .Create Example.alice "") Example.promoActor).1.Annotations
        AnnotationKeyCreateActor = some "kubernetes-user:alice" :=
  ⟨by decide,
    ((Default_create_actor_on_create Example.lib (Example.webhook Example.allowAll)
      (Example.ctxOf .Create Example.alice "") Example.promoActor
      { Operation := .Create, UserInfo := Example.alice, OldObject := "" } rfl rfl).1
      (by decide)).trans (by decide)⟩

/-! ## The owner reference -/

/-- C13: owner reference. For every request on which Default succeeds, the
target Stage was resolved and the candidate afterwards has exactly one owner
reference, the controller reference to that Stage (kind `Stage`, the Stage's
name and UID, controller and block-owner-deletion set); the owner references
the candidate carried before are discarded. -/
theorem Default_owner_reference (L : Lib) (w : Webhook) (ctx : Context) (obj : Promotion)
    (hok : (Default L w ctx obj).2 = none) :
    ∃ stage,
      w.getStageFn ctx w.client { Namespace := obj.Namespace, Name := obj.Spec.Stage } =
        .ok (some stage) ∧
      (Default L w ctx obj).1.OwnerReferences =
        some [{ APIVersion := L.Group ++ "/" ++ L.Version, Kind := "Stage", Name := stage.Name,
                UID := stage.UID, Controller := some true, BlockOwnerDeletion := some true }] := by
  obtain ⟨promo, hdef, _, hns, _, _, hstage, _⟩ := Default_ok_reaches_stage L w ctx obj hok
  rw [hdef] at hok ⊢
  obtain ⟨stage, hget, _, _, _, howner⟩ := defaultFromStage_ok L w ctx promo hok
  rw [hns, hstage] at hget
  exact ⟨stage, hget, by rw [howner]; rfl⟩

/-- C13, on the instance: a candidate that carried two owner references of its
own has, after Default, the controller reference to the Stage `test` and no
other. -/
theorem Default_owner_reference_witness :
    (Default Example.lib (Example.webhook Example.allowAll)
      (Example.ctxOf .Create Example.alice "") Example.promoOwned).2 = none ∧
    ∃ stage,
      (Example.webhook Example.allowAll).getStageFn (Example.ctxOf .Create Example.alice "")
        (Example.webhook Example.allowAll).client
        { Namespace := Example.promoOwned.Namespace,
          Name := Example.promoOwned.Spec.Stage } = .ok (some stage) ∧
      (Default Example.lib (Example.webhook Example.allowAll)
        (Example.ctxOf .Create Example.alice "") Example.promoOwned).1.OwnerReferences =
        some [{ APIVersion := Example.lib.Group ++ "/" ++ Example.lib.Version, Kind := "Stage",
                Name := stage.Name, UID := stage.UID, Controller := some true,
                BlockOwnerDeletion := some true }] :=
  ⟨by decide,
    Default_owner_reference Example.lib (Example.webhook Example.allowAll)
      (Example.ctxOf .Create Example.alice "") Example.promoOwned (by decide)⟩

/-! ## What the defaulting hook leaves alone on update -/

/-- C16: on update, Default changes only policy-managed metadata. For every
update request the candidate's spec (Stage, Freight and steps), name and
namespace after Default are those submitted, whether Default succeeds or not;
so the spec after Default equals a previous spec exactly when the submitted
spec does, and defaulting cannot by itself make an update violate spec
immutability. -/
theorem Default_update_frame (L : Lib) (w : Webhook) (ctx : Context) (obj : Promotion)
    (req : Request)
    (hreq : w.admissionRequestFromContextFn ctx = .ok req)
    (hop : req.Operation = .Update) :
    (Default L w ctx obj).1.Spec = obj.Spec ∧
    (Default L w ctx obj).1.Name = obj.Name ∧
    (Default L w ctx obj).1.Namespace = obj.Namespace ∧
    (∀ oldObj : Promotion,
      (Default L w ctx obj).1.Spec = oldObj.Spec ↔ obj.Spec = oldObj.Spec) := by
  have hframe : (Default L w ctx obj).1.Spec = obj.Spec ∧
      (Default L w ctx obj).1.Name = obj.Name ∧
      (Default L w ctx obj).1.Namespace = obj.Namespace := by
    rw [Default_update L w ctx obj req hreq hop]
    cases hdec : w.decoder.DecodeRaw req.OldObject with
    | error e => exact ⟨rfl, rfl, rfl⟩
    | ok oldPromo =>
      obtain ⟨h1, h2, _, h4⟩ := defaultFromStage_frame L w ctx
        (defaultUpdateAnnotations L w req oldPromo obj)
      obtain ⟨g1, g2, _, _, g5⟩ := defaultUpdateAnnotations_frame L w req oldPromo obj
      exact ⟨h4.trans g5, h1.trans g1, h2.trans g2⟩
  obtain ⟨hspec, hname, hns⟩ := hframe
  exact ⟨hspec, hname, hns, fun oldObj => by rw [hspec]⟩

/-- C16, on the instance: the update by `mallory` comes out of Default with its
spec, name and namespace as submitted. -/
theorem Default_update_frame_witness :
    (Default Example.lib (Example.webhook Example.allowAll)
      (Example.ctxOf .Update Example.mallory "old") Example.promoForged).1.Spec =
      Example.promoForged.Spec ∧
    (Default Example.lib (Example.webhook Example.allowAll)
      (Example.ctxOf .Update Example.mallory "old") Example.promoForged).1.Name = "p1" ∧
    (Default Example.lib (Example.webhook Example.allowAll)
      (Example.ctxOf .Update Example.mallory "old") Example.promoForged).1.Namespace =
      "kargo-demo" :=
  ⟨(Default_update_frame Example.lib (Example.webhook Example.allowAll)
      (Example.ctxOf .Update Example.mallory "old") Example.promoForged
      { Operation := .Update, UserInfo := Example.mallory, OldObject := "old" } rfl rfl).1,
   (Default_update_frame Example.lib (Example.webhook Example.allowAll)
      (Example.ctxOf .Update Example.mallory "old") Example.promoForged
      { Operation := .Update, UserInfo := Example.mallory, OldObject := "old" } rfl rfl).2.1,
   (Default_update_frame Example.lib (Example.webhook Example.allowAll)
      (Example.ctxOf .Update Example.mallory "old") Example.promoForged
      { Operation := .Update, UserInfo := Example.mallory, OldObject := "old" } rfl rfl).2.2.1⟩

/-! ## Stage resolution is fatal -/

/-- C17: Stage resolution is fatal in defaulting, for create and update. On a
create or update request, if the lookup of the target Stage by namespace and
target Stage name returns an error or returns no Stage, Default returns an
error and the labels and owner references are as submitted: neither the shard
label nor the owner reference is set. When Default gets as far as the lookup
(the step expansion of a create succeeded, the old object of an update was
decoded), the error for an absent Stage is the one that says the Stage could
not be found, and the error for a failed lookup wraps the lookup error; both
name the Stage and the namespace, each quoted as `%q` quotes it. -/
theorem Default_stage_resolution_fatal (L : Lib) (w : Webhook) (ctx : Context)
    (obj : Promotion) (req : Request)
    (hreq : w.admissionRequestFromContextFn ctx = .ok req)
    (hop : req.Operation = .Create ∨ req.Operation = .Update)
    (hstage :
      w.getStageFn ctx w.client { Namespace := obj.Namespace, Name := obj.Spec.Stage } =
        .ok none ∨
      ∃ e, w.getStageFn ctx w.client { Namespace := obj.Namespace, Name := obj.Spec.Stage } =
        .error e) :
    (Default L w ctx obj).2 ≠ none ∧
    (Default L w ctx obj).1.Labels = obj.Labels ∧
    (Default L w ctx obj).1.OwnerReferences = obj.OwnerReferences ∧
    (((req.Operation = .Create ∧
          ∃ steps, L.InflateSteps w.client ctx (defaultCreateAnnotations L w req obj) =
            .ok steps) ∨
        (req.Operation = .Update ∧ ∃ oldPromo, w.decoder.DecodeRaw req.OldObject = .ok oldPromo)) →
      (w.getStageFn ctx w.client { Namespace := obj.Namespace, Name := obj.Spec.Stage } =
          .ok none →
        (Default L w ctx obj).2 =
          some (.errorf ("could not find Stage " ++ L.quote obj.Spec.Stage ++
            " in namespace " ++ L.quote obj.Namespace))) ∧
      (∀ e,
        w.getStageFn ctx w.client { Namespace := obj.Namespace, Name := obj.Spec.Stage } =
          .error e →
        (Default L w ctx obj).2 =
          some (.wrapf ("error finding Stage " ++ L.quote obj.Spec.Stage ++
            " in namespace " ++ L.quote obj.Namespace) e))) := by
  -- what the second half of `Default` returns on a Promotion with the submitted target
  have tail : ∀ promo : Promotion,
      promo.Namespace = obj.Namespace → promo.Spec.Stage = obj.Spec.Stage →
      (defaultFromStage L w ctx promo).1 = promo ∧
      (defaultFromStage L w ctx promo).2 ≠ none ∧
      (w.getStageFn ctx w.client { Namespace := obj.Namespace, Name := obj.Spec.Stage } =
          .ok none →
        (defaultFromStage L w ctx promo).2 =
          some (.errorf ("could not find Stage " ++ L.quote obj.Spec.Stage ++
            " in namespace " ++ L.quote obj.Namespace))) ∧
      (∀ e,
        w.getStageFn ctx w.client { Namespace := obj.Namespace, Name := obj.Spec.Stage } =
          .error e →
        (defaultFromStage L w ctx promo).2 =
          some (.wrapf ("error finding Stage " ++ L.quote obj.Spec.Stage ++
            " in namespace " ++ L.quote obj.Namespace) e)) := by
    intro promo hns hst
    rcases hstage with habs | ⟨e, herr⟩
    · have h := defaultFromStage_of_absent L w ctx promo (by rw [hns, hst]; exact habs)
      rw [h, hns, hst]
      refine ⟨rfl, by simp, fun _ => rfl, ?_⟩
      intro e he
      rw [habs] at he
      cases he
    · have h := defaultFromStage_of_error L w ctx promo e (by rw [hns, hst]; exact herr)
      rw [h, hns, hst]
      refine ⟨rfl, by simp, ?_, ?_⟩
      · intro habs
        rw [herr] at habs
        cases habs
      · intro e2 he2
        rw [herr] at he2
        cases he2
        rfl
  rcases hop with hc | hu
  · rw [Default_create L w ctx obj req hreq hc]
    obtain ⟨_, g2, g3, g4, g5⟩ := defaultCreateAnnotations_frame L w req obj
    cases hinf : L.InflateSteps w.client ctx (defaultCreateAnnotations L w req obj) with
    | error e =>
      refine ⟨by simp, g3, g4, ?_⟩
      rintro (⟨_, steps, hsteps⟩ | ⟨hu, _⟩)
      · cases hsteps
      · rw [hc] at hu
        cases hu
    | ok steps =>
      obtain ⟨t1, t2, t3, t4⟩ := tail
        { defaultCreateAnnotations L w req obj with
          Spec := { (defaultCreateAnnotations L w req obj).Spec with Steps := steps } }
        g2 (by simp [g5])
      refine ⟨t2, ?_, ?_, fun _ => ⟨t3, t4⟩⟩
      · rw [t1]
        exact g3
      · rw [t1]
        exact g4
  · rw [Default_update L w ctx obj req hreq hu]
    cases hdec : w.decoder.DecodeRaw req.OldObject with
    | error e =>
      refine ⟨by simp, rfl, rfl, ?_⟩
      rintro (⟨hc, _⟩ | ⟨_, oldPromo, hold⟩)
      · rw [hu] at hc
        cases hc
      · cases hold
    | ok oldPromo =>
      obtain ⟨_, g2, g3, g4, g5⟩ := defaultUpdateAnnotations_frame L w req oldPromo obj
      obtain ⟨t1, t2, t3, t4⟩ := tail (defaultUpdateAnnotations L w req oldPromo obj) g2
        (by rw [g5])
      refine ⟨t2, ?_, ?_, fun _ => ⟨t3, t4⟩⟩
      · rw [t1]
        exact g3
      · rw [t1]
        exact g4

/-- C17, on the instance: the update of a Promotion whose target Stage `missing`
does not exist is refused by Default with the error that says so, and the
candidate keeps the shard label it carried and gets no owner reference. -/
theorem Default_stage_resolution_fatal_witness :
    (Default Example.lib (Example.webhook Example.allowAll)
      (Example.ctxOf .Update Example.alice "old") Example.promoNoStage).2 =
      some (.errorf "could not find Stage \"missing\" in namespace \"kargo-demo\"") ∧
    (Default Example.lib (Example.webhook Example.allowAll)
      (Example.ctxOf .Update Example.alice "old") Example.promoNoStage).1.Labels =
      Example.promoNoStage.Labels ∧
    (Default Example.lib (Example.webhook Example.allowAll)
      (Example.ctxOf .Update Example.alice "old") Example.promoNoStage).1.OwnerReferences =
      none :=
  ⟨(((Default_stage_resolution_fatal Example.lib (Example.webhook Example.allowAll)
      (Example.ctxOf .Update Example.alice "old") Example.promoNoStage
      { Operation := .Update, UserInfo := Example.alice, OldObject := "old" }
      rfl (Or.inr rfl) (Or.inl rfl)).2.2.2
      (Or.inr ⟨rfl, Example.oldPromo, rfl⟩)).1 rfl).trans (by decide),
   (Default_stage_resolution_fatal Example.lib (Example.webhook Example.allowAll)
      (Example.ctxOf .Update Example.alice "old") Example.promoNoStage
      { Operation := .Update, UserInfo := Example.alice, OldObject := "old" }
      rfl (Or.inr rfl) (Or.inl rfl)).2.1,
   (Default_stage_resolution_fatal Example.lib (Example.webhook Example.allowAll)
      (Example.ctxOf .Update Example.alice "old") Example.promoNoStage
      { Operation := .Update, UserInfo := Example.alice, OldObject := "old" }
      rfl (Or.inr rfl) (Or.inl rfl)).2.2.1⟩

/-! ## Deletion -/

/-- C14: ValidateDelete performs no check other than authorization. For every
Promotion it returns no warnings and exactly the result of the authorizer for
the action "delete": it accepts iff the authorizer allows and otherwise returns
the authorizer's error unchanged. The result depends on the webhook and the
Promotion through the authorizer's answer only: whatever the spec, and whatever
the Stage lookup, the Freight lookup and the project validation would say. -/
theorem ValidateDelete_only_authorizes (w : Webhook) (ctx : Context) (obj : Promotion) :
    (ValidateDelete w ctx obj).warnings = none ∧
    (ValidateDelete w ctx obj).err = (w.authorizeFn ctx obj "delete").err ∧
    (ValidateDelete w ctx obj).effects = (w.authorizeFn ctx obj "delete").effects ∧
    ((ValidateDelete w ctx obj).err = none ↔ (w.authorizeFn ctx obj "delete").err = none) ∧
    (∀ (w2 : Webhook) (obj2 : Promotion),
      w2.authorizeFn ctx obj2 "delete" = w.authorizeFn ctx obj "delete" →
      ValidateDelete w2 ctx obj2 = ValidateDelete w ctx obj) := by
  refine ⟨rfl, rfl, rfl, Iff.rfl, ?_⟩
  intro w2 obj2 h
  simp [ValidateDelete, h]

/-- C14, on the instance: the deletion of a Promotion whose target Stage does
not exist is accepted as soon as the authorizer allows it, and the deletion of
a Promotion without steps has the result of the deletion of the Promotion with
steps, for which the authorizer answers the same. -/
theorem ValidateDelete_only_authorizes_witness :
    (ValidateDelete (Example.webhook Example.allowAll)
      (Example.ctxOf .Delete Example.alice "") Example.promoNoStage).err = none ∧
    ValidateDelete (Example.webhook Example.allowAll)
        (Example.ctxOf .Delete Example.alice "") Example.promoNoSteps =
      ValidateDelete (Example.webhook Example.allowAll)
        (Example.ctxOf .Delete Example.alice "") Example.promo :=
  ⟨((ValidateDelete_only_authorizes (Example.webhook Example.allowAll)
      (Example.ctxOf .Delete Example.alice "") Example.promoNoStage).2.2.2.1).2 (by decide),
   (ValidateDelete_only_authorizes (Example.webhook Example.allowAll)
      (Example.ctxOf .Delete Example.alice "") Example.promo).2.2.2.2
      (Example.webhook Example.allowAll) Example.promoNoSteps (by decide)⟩

/-! ## The created notification -/

/-- The calls of `authorize` are access-review submissions: it records no
event. -/
theorem authorize_records_no_event (L : Lib) (w : Webhook) (ctx : Context) (promo : Promotion)
    (action : String) (ev : RecordedEvent) :
    Effect.annotatedEvent ev ∉ (authorize L w ctx promo action).effects := by
  unfold authorize
  cases hreq : w.admissionRequestFromContextFn ctx with
  | error e => simp
  | ok req =>
    simp only
    cases hsar : w.createSubjectAccessReviewFn ctx (accessReviewFor L req promo) with
    | error e => simp
    | ok answered => cases hallowed : answered.Status.Allowed <;> simp [hallowed]

/-- When ValidateCreate accepts, every check passed and its calls are those of
the authorizer followed, for a request that is not from the control plane, by
the recording of the created event. -/
theorem ValidateCreate_accept (L : Lib) (w : Webhook) (ctx : Context) (obj : Promotion)
    (h : (ValidateCreate L w ctx obj).err = none) :
    ∃ req stage freight,
      w.admissionRequestFromContextFn ctx = .ok req ∧
      w.getStageFn ctx w.client { Namespace := obj.Namespace, Name := obj.Spec.Stage } =
        .ok stage ∧
      w.getFreightFn ctx w.client { Namespace := obj.Namespace, Name := obj.Spec.Freight } =
        .ok freight ∧
      (ValidateCreate L w ctx obj).effects =
        (w.authorizeFn ctx obj "create").effects ++
          (if w.isRequestFromKargoControlplaneFn req = false then
            recordPromotionCreatedEvent L ctx req obj freight
          else []) := by
  unfold ValidateCreate at h ⊢
  cases hproj : w.validateProjectFn ctx w.client obj with
  | some err =>
    simp only [hproj] at h
    cases hs : asStatusError err with
    | some se => simp [hs] at h
    | none =>
      simp only [hs] at h
      cases hf : asFieldError err with
      | some fe => simp [hf, NewInvalid] at h
      | none => simp [hf, NewInternalError] at h
  | none =>
    simp only [hproj] at h ⊢
    cases hauth : (w.authorizeFn ctx obj "create").err with
    | some err => simp [hauth] at h
    | none =>
      simp only [hauth] at h ⊢
      cases hreq : w.admissionRequestFromContextFn ctx with
      | error e => simp [hreq] at h
      | ok req =>
        simp only [hreq] at h ⊢
        cases hstage : w.getStageFn ctx w.client
            { Namespace := obj.Namespace, Name := obj.Spec.Stage } with
        | error e => simp [hstage] at h
        | ok stage =>
          simp only [hstage] at h ⊢
          cases hfreight : w.getFreightFn ctx w.client
              { Namespace := obj.Namespace, Name := obj.Spec.Freight } with
          | error e => simp [hfreight] at h
          | ok freight =>
            simp only [hfreight] at h ⊢
            cases hav : L.IsFreightAvailable stage freight with
            | false => simp [hav] at h
            | true =>
              refine ⟨req, stage, freight, rfl, rfl, rfl, ?_⟩
              cases hcp : w.isRequestFromKargoControlplaneFn req <;> simp [hav, hcp]

/-- When ValidateCreate rejects, it has made no call but those of the
authorizer. -/
theorem ValidateCreate_reject_effects (L : Lib) (w : Webhook) (ctx : Context) (obj : Promotion)
    (h : (ValidateCreate L w ctx obj).err ≠ none) :
    ∀ e, e ∈ (ValidateCreate L w ctx obj).effects →
      e ∈ (w.authorizeFn ctx obj "create").effects := by
  unfold ValidateCreate at h ⊢
  cases hproj : w.validateProjectFn ctx w.client obj with
  | some err =>
    simp only [hproj]
    cases hs : asStatusError err with
    | some se => simp
    | none =>
      cases hf : asFieldError err with
      | some fe => simp
      | none => simp
  | none =>
    simp only [hproj] at h ⊢
    cases hauth : (w.authorizeFn ctx obj "create").err with
    | some err => simp
    | none =>
      simp only [hauth] at h ⊢
      cases hreq : w.admissionRequestFromContextFn ctx with
      | error e => simp
      | ok req =>
        simp only [hreq] at h ⊢
        cases hstage : w.getStageFn ctx w.client
            { Namespace := obj.Namespace, Name := obj.Spec.Stage } with
        | error e => simp
        | ok stage =>
          simp only [hstage] at h ⊢
          cases hfreight : w.getFreightFn ctx w.client
              { Namespace := obj.Namespace, Name := obj.Spec.Freight } with
          | error e => simp
          | ok freight =>
            simp only [hfreight] at h ⊢
            cases hav : L.IsFreightAvailable stage freight with
            | false => simp [hav]
            | true => simp [hav] at h

/-- The error of ValidateCreate, written without the recording of the event:
the outcome of the checks, in order. -/
theorem ValidateCreate_err (L : Lib) (w : Webhook) (ctx : Context) (obj : Promotion) :
    (ValidateCreate L w ctx obj).err =
      match w.validateProjectFn ctx w.client obj with
      | some err =>
        match asStatusError err with
        | some statusErr => some statusErr
        | none =>
          match asFieldError err with
          | none => some (NewInternalError err)
          | some fieldErr => some (NewInvalid (promotionGroupKind L) obj.Name [fieldErr])
      | none =>
        match (w.authorizeFn ctx obj "create").err with
        | some err => some (NewInternalError err)
        | none =>
          match w.admissionRequestFromContextFn ctx with
          | .error err =>
            some (NewInternalError (.wrapf "get admission request from context" err))
          | .ok _ =>
            match w.getStageFn ctx w.client
              { Namespace := obj.Namespace, Name := obj.Spec.Stage } with
            | .error err => some (NewInternalError (.wrapf "get stage" err))
            | .ok stage =>
              match w.getFreightFn ctx w.client
                { Namespace := obj.Namespace, Name := obj.Spec.Freight } with
              | .error err => some (NewInternalError (.wrapf "get freight" err))
              | .ok freight =>
                if !L.IsFreightAvailable stage freight then
                  some (NewInvalid (promotionGroupKind L) obj.Name
                    [fieldInvalid (NewPath ["spec", "freight"]) (.str obj.Spec.Freight)
                      "Freight is not available to this Stage"])
                else none := by
  unfold ValidateCreate
  cases hproj : w.validateProjectFn ctx w.client obj with
  | some err =>
    simp only [hproj]
    cases hs : asStatusError err with
    | some se => simp only [hs]
    | none =>
      simp only [hs]
      cases hf : asFieldError err <;> simp only [hf]
  | none =>
    simp only [hproj]
    cases hauth : (w.authorizeFn ctx obj "create").err with
    | some err => simp only [hauth]
    | none =>
      simp only [hauth]
      cases hreq : w.admissionRequestFromContextFn ctx with
      | error e => simp only [hreq]
      | ok req =>
        simp only [hreq]
        cases hstage : w.getStageFn ctx w.client
            { Namespace := obj.Namespace, Name := obj.Spec.Stage } with
        | error e => simp only [hstage]
        | ok stage =>
          simp only [hstage]
          cases hfreight : w.getFreightFn ctx w.client
              { Namespace := obj.Namespace, Name := obj.Spec.Freight } with
          | error e => simp only [hfreight]
          | ok freight =>
            simp only [hfreight]
            cases hav : L.IsFreightAvailable stage freight <;> simp [hav]

/-- C15: the created notification is gated and does not bear on the decision.
With an authorizer that records no event, ValidateCreate records an event if
and only if every check passed (the result is an accept) and the request is not
from the control plane; the event it records is the created event of the
Promotion, naming the Stage and the formatted requester, each quoted as `%q`
quotes it. The recorder returns
nothing to the hook, and the warnings and error of ValidateCreate are the same
whatever decides the emission and builds the event: they do not change when the
control-plane test, the actor format, the event annotations and the event
reason are replaced by any others. -/
theorem ValidateCreate_created_event (L : Lib) (w : Webhook) (ctx : Context) (obj : Promotion)
    (hauthz : ∀ ev, Effect.annotatedEvent ev ∉ (w.authorizeFn ctx obj "create").effects) :
    ((∃ ev, Effect.annotatedEvent ev ∈ (ValidateCreate L w ctx obj).effects) ↔
      ((ValidateCreate L w ctx obj).err = none ∧
        ∃ req, w.admissionRequestFromContextFn ctx = .ok req ∧
          w.isRequestFromKargoControlplaneFn req = false)) ∧
    (∀ ev, Effect.annotatedEvent ev ∈ (ValidateCreate L w ctx obj).effects →
      ∃ req, w.admissionRequestFromContextFn ctx = .ok req ∧
        ev.Object = { Namespace := obj.Namespace, Name := obj.Name } ∧
        ev.EventType = "Normal" ∧
        ev.Reason = L.EventReasonPromotionCreated ∧
        ev.Message = "Promotion created for Stage " ++ L.quote obj.Spec.Stage ++ " by " ++
          L.quote (L.FormatEventKubernetesUserActor req.UserInfo)) ∧
    (∀ (cp : Request → Bool) (format : UserInfo → String)
        (annotate : Context → String → Promotion → Option Freight → List (String × String))
        (reason : String),
      (ValidateCreate
          { L with
            FormatEventKubernetesUserActor := format
            NewPromotionAnnotations := annotate
            EventReasonPromotionCreated := reason }
          { w with isRequestFromKargoControlplaneFn := cp } ctx obj).err =
        (ValidateCreate L w ctx obj).err ∧
      (ValidateCreate
          { L with
            FormatEventKubernetesUserActor := format
            NewPromotionAnnotations := annotate
            EventReasonPromotionCreated := reason }
          { w with isRequestFromKargoControlplaneFn := cp } ctx obj).warnings =
        (ValidateCreate L w ctx obj).warnings) := by
  -- an event among the calls comes from an accept of a request not from the control plane
  have origin : ∀ ev, Effect.annotatedEvent ev ∈ (ValidateCreate L w ctx obj).effects →
      (ValidateCreate L w ctx obj).err = none ∧
      ∃ req freight, w.admissionRequestFromContextFn ctx = .ok req ∧
        w.isRequestFromKargoControlplaneFn req = false ∧
        Effect.annotatedEvent ev ∈ recordPromotionCreatedEvent L ctx req obj freight := by
    intro ev hev
    cases herr : (ValidateCreate L w ctx obj).err with
    | some e =>
      have hrej : (ValidateCreate L w ctx obj).err ≠ none := by simp [herr]
      exact absurd (ValidateCreate_reject_effects L w ctx obj hrej _ hev) (hauthz ev)
    | none =>
      obtain ⟨req, stage, freight, hreq, _, _, heff⟩ := ValidateCreate_accept L w ctx obj herr
      rw [heff, List.mem_append] at hev
      rcases hev with hev | hev
      · exact absurd hev (hauthz ev)
      · cases hcp : w.isRequestFromKargoControlplaneFn req with
        | true => simp [hcp] at hev
        | false =>
          simp only [hcp, if_true] at hev
          exact ⟨rfl, req, freight, hreq, hcp, hev⟩
  refine ⟨⟨?_, ?_⟩, ?_, ?_⟩
  · rintro ⟨ev, hev⟩
    obtain ⟨herr, req, _, hreq, hcp, _⟩ := origin ev hev
    exact ⟨herr, req, hreq, hcp⟩
  · rintro ⟨herr, req, hreq, hcp⟩
    obtain ⟨req2, stage, freight, hreq2, _, _, heff⟩ := ValidateCreate_accept L w ctx obj herr
    rw [hreq] at hreq2
    cases hreq2
    rw [heff]
    simp [hcp, recordPromotionCreatedEvent]
  · intro ev hev
    obtain ⟨_, req, freight, hreq, _, hmem⟩ := origin ev hev
    refine ⟨req, hreq, ?_⟩
    simp only [recordPromotionCreatedEvent, List.mem_singleton, Effect.annotatedEvent.injEq] at hmem
    subst hmem
    exact ⟨rfl, rfl, rfl, rfl⟩
  · intro cp format annotate reason
    refine ⟨?_, ?_⟩
    · rw [ValidateCreate_err, ValidateCreate_err]
      rfl
    · unfold ValidateCreate
      simp only []
      repeat' split
      all_goals rfl

/-- C15, on the instance: the creation by `alice` is accepted and records the
created event; the same creation by the control plane is accepted and records
no event. -/
theorem ValidateCreate_created_event_witness :
    (∃ ev, Effect.annotatedEvent ev ∈
      (ValidateCreate Example.lib (Example.webhook Example.allowAll)
        (Example.ctxOf .Create Example.alice "") Example.promo).effects) ∧
    (ValidateCreate Example.lib (Example.webhook Example.allowAll)
      (Example.ctxOf .Create Example.controller "") Example.promo).err = none ∧
    ¬ ∃ ev, Effect.annotatedEvent ev ∈
      (ValidateCreate Example.lib (Example.webhook Example.allowAll)
        (Example.ctxOf .Create Example.controller "") Example.promo).effects :=
  ⟨((ValidateCreate_created_event Example.lib (Example.webhook Example.allowAll)
      (Example.ctxOf .Create Example.alice "") Example.promo
      (fun ev => authorize_records_no_event Example.lib (Example.webhook Example.allowAll)
        (Example.ctxOf .Create Example.alice "") Example.promo "create" ev)).1).2
      ⟨by decide, { Operation := .Create, UserInfo := Example.alice, OldObject := "" },
        rfl, by decide⟩,
   by decide,
   fun h => by
    obtain ⟨_, req, hreq, hcp⟩ :=
      ((ValidateCreate_created_event Example.lib (Example.webhook Example.allowAll)
        (Example.ctxOf .Create Example.controller "") Example.promo
        (fun ev => authorize_records_no_event Example.lib (Example.webhook Example.allowAll)
          (Example.ctxOf .Create Example.controller "") Example.promo "create" ev)).1).1 h
    cases hreq
    revert hcp
    decide⟩

end Kargo
